import Mathlib

/-!
# Verification of the GeoMap planar-map engine and its checkpointing pyramid

Shallow embedding of the core data structures and operations of the
topological image-segmentation engine: the planar map (nodes, edges,
faces, darts), its Euler operators, and the pyramid's history and
composite bookkeeping.  Definitions are translated from
`src/geomap/cppmap.cxx` and `src/cellimage/cellpyramid.hxx`.

Modelling conventions:
* machine doubles (`vigra::Vector2`) are modelled over ℚ;
* `CELL_PTR` handles are `Option`; a null dereference (`vigra_precondition`
  failure or crash) is an `Except.error` carrying the map state at the
  moment of the throw, so that "fails without mutation" is expressible;
* the polygon base class (`vigra::BBoxPolygon`) is external to the
  repository; the operations used here (point list, `reverse`, `extend`,
  `partialArea`) are modelled from the specification (§4.C);
* the optional label image is the `labelImage_ == NULL` configuration:
  every raster-touching block in the source is guarded by
  `if(labelImage_)` and is skipped in that configuration, so it does not
  appear below;
* modification hooks are modelled only where a claim needs them
  (`removeIsolatedNode`); the other operators are modelled with an empty
  hook list, on which the hook loops are no-ops.
-/

/-- 2-D point; the C++ code uses `vigra::Vector2` (doubles), modelled over ℚ. -/
abbrev V2 : Type := ℚ × ℚ

/-- `UNINITIALIZED_CELL_LABEL = NumericTraits<CellLabel>::max()` for a
32-bit unsigned `CellLabel`. -/
def UNINITIALIZED_CELL_LABEL : Nat := 4294967295

/-- `GeoMap::Node`: label, position and the sigma-orbit of signed dart
labels (`darts_`). -/
structure GeoMap.Node where
  label : Nat
  position : V2
  darts : List Int
deriving DecidableEq

/-- `GeoMap::Edge`: label, end-node labels, face labels on either side,
and the polygon's point list (the `BBoxPolygon` base object). -/
structure GeoMap.Edge where
  label : Nat
  startNodeLabel : Nat
  endNodeLabel : Nat
  leftFaceLabel : Nat
  rightFaceLabel : Nat
  points : List V2
deriving DecidableEq

/-- `GeoMap::Face`: label and the anchor darts (`anchors_`), one per
boundary component.  (The cached bounding box / area / pixel area are
recomputed on demand in this model and carry no claim.) -/
structure GeoMap.Face where
  label : Nat
  anchors : List Int
deriving DecidableEq

/-- The map: per-kind arenas indexed by label (`nodes_`, `edges_`,
`faces_`, with `none` for removed or reserved slots) plus the positioned
node index (`nodeMap_`, a `Map2D` whose entries are position/label
pairs; the key ordering of the multimap is not needed by any claim, only
entry membership). -/
structure GeoMap where
  nodes : List (Option GeoMap.Node)
  edges : List (Option GeoMap.Edge)
  faces : List (Option GeoMap.Face)
  nodeMap : List (V2 × Nat)
deriving DecidableEq

/-- `GeoMap::node(label)`: null-returning lookup. -/
def GeoMap.node (m : GeoMap) (l : Nat) : Option GeoMap.Node :=
  m.nodes.getD l none

/-- `GeoMap::edge(label)`: null-returning lookup. -/
def GeoMap.edge (m : GeoMap) (l : Nat) : Option GeoMap.Edge :=
  m.edges.getD l none

/-- `GeoMap::face(label)`: null-returning lookup. -/
def GeoMap.face (m : GeoMap) (l : Nat) : Option GeoMap.Face :=
  m.faces.getD l none

def GeoMap.setNode (m : GeoMap) (l : Nat) (v : Option GeoMap.Node) : GeoMap :=
  { m with nodes := m.nodes.set l v }

def GeoMap.setEdge (m : GeoMap) (l : Nat) (v : Option GeoMap.Edge) : GeoMap :=
  { m with edges := m.edges.set l v }

def GeoMap.setFace (m : GeoMap) (l : Nat) (v : Option GeoMap.Face) : GeoMap :=
  { m with faces := m.faces.set l v }

/-- In-place mutation of a live node (no-op on a null slot; every use
below is preceded by a successful lookup). -/
def GeoMap.modifyNode (m : GeoMap) (l : Nat) (f : GeoMap.Node → GeoMap.Node) : GeoMap :=
  match m.node l with
  | none => m
  | some n => m.setNode l (some (f n))

def GeoMap.modifyEdge (m : GeoMap) (l : Nat) (f : GeoMap.Edge → GeoMap.Edge) : GeoMap :=
  match m.edge l with
  | none => m
  | some e => m.setEdge l (some (f e))

def GeoMap.modifyFace (m : GeoMap) (l : Nat) (f : GeoMap.Face → GeoMap.Face) : GeoMap :=
  match m.face l with
  | none => m
  | some f' => m.setFace l (some (f f'))

/-- `Node::degree()` = `darts_.size()` (0 for a null slot). -/
def GeoMap.degree (m : GeoMap) (l : Nat) : Nat :=
  match m.node l with
  | none => 0
  | some n => n.darts.length

/-! ## Dart operations

A dart is its signed label (`GeoMap::Dart::label_`); the owning map is
passed explicitly.  `nextAlpha` is sign flip, `nextSigma` a cyclic
rotation in the start node's dart list. -/

/-- `Dart::edgeLabel() = abs(label_)`. -/
def GeoMap.dartEdgeLabel (d : Int) : Nat := d.natAbs

/-- `Dart::edge()`. -/
def GeoMap.dartEdge (m : GeoMap) (d : Int) : Option GeoMap.Edge :=
  m.edge d.natAbs

/-- `Dart::startNodeLabel()`: start node for positive darts, end node for
negative ones (`none` models the `guaranteedEdge()` failure on a removed
edge). -/
def GeoMap.dartStartNodeLabel (m : GeoMap) (d : Int) : Option Nat :=
  (m.dartEdge d).map (fun e => if d > 0 then e.startNodeLabel else e.endNodeLabel)

/-- `Dart::endNodeLabel()`. -/
def GeoMap.dartEndNodeLabel (m : GeoMap) (d : Int) : Option Nat :=
  (m.dartEdge d).map (fun e => if d > 0 then e.endNodeLabel else e.startNodeLabel)

/-- `Dart::leftFaceLabel()`. -/
def GeoMap.dartLeftFaceLabel (m : GeoMap) (d : Int) : Option Nat :=
  (m.dartEdge d).map (fun e => if d > 0 then e.leftFaceLabel else e.rightFaceLabel)

/-- `Dart::rightFaceLabel()`. -/
def GeoMap.dartRightFaceLabel (m : GeoMap) (d : Int) : Option Nat :=
  (m.dartEdge d).map (fun e => if d > 0 then e.rightFaceLabel else e.leftFaceLabel)

/-- `Dart::setLeftFaceLabel(l)`: writes `leftFaceLabel_` of the edge for
a positive dart, `rightFaceLabel_` for a negative one. -/
def GeoMap.setDartLeftFaceLabel (m : GeoMap) (d : Int) (l : Nat) : GeoMap :=
  m.modifyEdge d.natAbs (fun e =>
    if d > 0 then { e with leftFaceLabel := l } else { e with rightFaceLabel := l })

/-- Index of the first occurrence of `x` (the scan loop in
`Dart::nextSigma`). -/
def idxOfFirst (x : Int) : List Int → Option Nat
  | [] => none
  | y :: ys => if y = x then some 0 else (idxOfFirst x ys).map (· + 1)

/-- `Dart::nextSigma(times)`: find the own label in the start node's dart
list (failing like `"Dart not attached to its startnode??"` if absent),
then shift cyclically by `times`; the C `%` (truncating, as in the
source) is followed by the `if(i < 0) i += darts.size()` fix-up. -/
def GeoMap.nextSigmaTimes (m : GeoMap) (d : Int) (times : Int) : Option Int :=
  match m.dartStartNodeLabel d with
  | none => none
  | some nl =>
    match m.node nl with
    | none => none
    | some n =>
      match idxOfFirst d n.darts with
      | none => none
      | some i =>
        let len : Int := n.darts.length
        let j := Int.tmod ((i : Int) + times) len
        let j2 := if j < 0 then j + len else j
        n.darts[j2.toNat]?

/-- `Dart::nextSigma()`. -/
def GeoMap.nextSigma (m : GeoMap) (d : Int) : Option Int :=
  m.nextSigmaTimes d 1

/-- `Dart::prevSigma()` = `nextSigma(-1)`. -/
def GeoMap.prevSigma (m : GeoMap) (d : Int) : Option Int :=
  m.nextSigmaTimes d (-1)

/-- `Dart::nextPhi()` = `nextAlpha(); prevSigma()`. -/
def GeoMap.nextPhi (m : GeoMap) (d : Int) : Option Int :=
  m.prevSigma (-d)

/-- `Dart::prevPhi()` = `nextSigma(); nextAlpha()`. -/
def GeoMap.prevPhi (m : GeoMap) (d : Int) : Option Int :=
  (m.nextSigma d).map (fun x => -x)

/-! ## Polygon operations (modelled from the spec)

`vigra::BBoxPolygon` is external to the repository.  Modelled from the
spec: `partialArea() = ½ Σᵢ (xᵢ yᵢ₊₁ − xᵢ₊₁ yᵢ)` over consecutive point
pairs (not closed), `reverse()` reverses the point order, `extend(other)`
appends the other polygon's points. -/

/-- Modelled from the spec: the signed partial-area contribution of an
open polyline (`Polygon::partialArea`). -/
def partArea : List V2 → ℚ
  | p :: q :: rest => (p.1 * q.2 - q.1 * p.2) / 2 + partArea (q :: rest)
  | _ => 0

/-- `Dart::partialArea()`: the edge's partial area, negated for the
reverse orientation. -/
def GeoMap.dartPartArea (m : GeoMap) (d : Int) : Option ℚ :=
  (m.dartEdge d).map (fun e => if d > 0 then partArea e.points else -partArea e.points)

/-- Contribution of one dart to `contourArea`: zero for a bridge
(`isBridge ⇔ leftFaceLabel_ == rightFaceLabel_`), the partial area
otherwise.  Total version used to state orbit sums (a dart on a removed
edge contributes zero; such darts never occur in a successful orbit). -/
def GeoMap.dartAreaContrib (m : GeoMap) (d : Int) : ℚ :=
  match m.dartEdge d with
  | none => 0
  | some e =>
    if e.leftFaceLabel = e.rightFaceLabel then 0
    else if d > 0 then partArea e.points else -partArea e.points

/-- The do/while loop of `contourArea(dart)`: walk the phi-orbit starting
from `start`, summing `partialArea` of every non-bridge dart, until
`nextPhi` returns to `start`.  `fuel` bounds the walk (the C++ loop would
not terminate where the model returns `none`). -/
def GeoMap.contourAreaAux (m : GeoMap) (start : Int) : Nat → Int → Option ℚ
  | 0, _ => none
  | fuel + 1, d =>
    match m.dartEdge d with
    | none => none
    | some e =>
      let c : ℚ :=
        if e.leftFaceLabel = e.rightFaceLabel then 0
        else if d > 0 then partArea e.points else -partArea e.points
      match m.nextPhi d with
      | none => none
      | some d' =>
        if d' = start then some c
        else (m.contourAreaAux start fuel d').map (fun s => c + s)

/-- `contourArea(dart)` (free function of `cppmap.cxx`). -/
def GeoMap.contourArea (m : GeoMap) (d : Int) (fuel : Nat) : Option ℚ :=
  m.contourAreaAux d fuel d

/-- The phi-orbit of a dart as a list (first `dart`, then successive
`nextPhi` images until the walk closes); `none` on a broken walk or
exhausted fuel. -/
def GeoMap.phiOrbitAux (m : GeoMap) (start : Int) : Nat → Int → Option (List Int)
  | 0, _ => none
  | fuel + 1, d =>
    match m.nextPhi d with
    | none => none
    | some d' =>
      if d' = start then some [d]
      else (m.phiOrbitAux start fuel d').map (fun l => d :: l)

/-- The phi-orbit through `d`. -/
def GeoMap.phiOrbit (m : GeoMap) (d : Int) (fuel : Nat) : Option (List Int) :=
  m.phiOrbitAux d fuel d

/-- `Face::area()`: sum of `contourArea` over the face's anchors
(computed, standing for the cache-validated value). -/
def GeoMap.faceArea (m : GeoMap) (f : GeoMap.Face) (fuel : Nat) : Option ℚ :=
  (f.anchors.mapM (fun a => m.contourArea a fuel)).map (fun l => l.sum)

/-! ## Error-carrying results

`vigra_precondition` / `vigra_fail` throw; a throw leaves the map in
whatever state it had reached.  Results therefore carry the map state at
the moment of the throw, so that "fails without mutating" is a provable
statement about the error value. -/

/-- Result of an operation on a map: error message together with the map
state at the throw, or the new map state plus a result label. -/
abbrev GRes (α : Type) : Type := Except (String × GeoMap) α

/-- Dereference a handle, failing (with the current map state) on null. -/
def reqSt {α : Type} (st : GeoMap) (o : Option α) (msg : String) : GRes α :=
  match o with
  | some a => .ok a
  | none => .error (msg, st)

/-- `vigra_precondition(b, msg)` at map state `st`. -/
def checkSt (st : GeoMap) (b : Prop) [Decidable b] (msg : String) : GRes Unit :=
  if b then .ok () else .error (msg, st)

/-! ## Construction: `addNode`, `addEdge` -/

/-- The state of a freshly constructed `GeoMap` before any cells are
added: the constructor pushes a null slot 0 into `nodes_` and `edges_`;
`faces_` stays empty until `initContours`. -/
def GeoMap.empty : GeoMap :=
  { nodes := [none], edges := [none], faces := [], nodeMap := [] }

/-- `GeoMap::addNode(position)` (via the `Node` constructor): the new
node takes the next slot, has an empty dart list, and is entered into the
positioned index. -/
def GeoMap.addNode (m : GeoMap) (position : V2) : GeoMap × Nat :=
  let l := m.nodes.length
  ({ m with
      nodes := m.nodes ++ [some { label := l, position := position, darts := [] }]
      nodeMap := (position, l) :: m.nodeMap },
   l)

/-- `GeoMap::addEdge(startNodeLabel, endNodeLabel, points, label = 0)`:
optionally grow the edge vector with null slots up to `label`, check the
end nodes, append the edge (face labels still uninitialized) and push the
two darts onto the end nodes' lists. -/
def GeoMap.addEdge (m : GeoMap) (startNodeLabel endNodeLabel : Nat)
    (points : List V2) (label : Nat := 0) : GRes (GeoMap × Nat) := do
  let m := if label > m.edges.length then
      { m with edges := m.edges ++ List.replicate (label - m.edges.length) none }
    else m
  let _ ← reqSt m ((m.node startNodeLabel).bind (fun _ => m.node endNodeLabel))
      "addEdge(): invalid start- or endNodeLabel!"
  let l := m.edges.length
  let e : GeoMap.Edge :=
    { label := l, startNodeLabel := startNodeLabel, endNodeLabel := endNodeLabel
      leftFaceLabel := UNINITIALIZED_CELL_LABEL
      rightFaceLabel := UNINITIALIZED_CELL_LABEL
      points := points }
  let m := { m with edges := m.edges ++ [some e] }
  let m := m.modifyNode startNodeLabel (fun n => { n with darts := n.darts ++ [(l : Int)] })
  let m := m.modifyNode endNodeLabel (fun n => { n with darts := n.darts ++ [-(l : Int)] })
  return (m, l)

/-! ## Node removal and the `removeNode` hooks -/

/-- `Node::uninitialize()`: clear the slot at the node's own `label_`
(label indices stay stable) and erase the node's entry from the
positioned index.  `Map2D::nearest` compares positions only (the payload
label is never consulted), so the erase removes the entry at the node's
`position_`. -/
def GeoMap.uninitializeNodeObj (m : GeoMap) (n : GeoMap.Node) : GeoMap :=
  { m with
      nodes := m.nodes.set n.label none
      nodeMap := m.nodeMap.eraseP (fun q => q.1 == n.position) }

/-- `Edge::uninitialize()`. -/
def GeoMap.uninitializeEdge (m : GeoMap) (l : Nat) : GeoMap :=
  m.setEdge l none

/-- `Face::uninitialize()`. -/
def GeoMap.uninitializeFace (m : GeoMap) (l : Nat) : GeoMap :=
  m.setFace l none

/-- `GeoMap::removeIsolatedNode(node)`, with the registered `removeNode`
hooks passed explicitly.  The source loops over ALL hooks, never reading
their boolean results, and then unconditionally uninitializes the node.
The returned list is the invocation trace (each invoked hook's return
value, in registration order). -/
def GeoMap.removeIsolatedNode (hooks : List (GeoMap.Node → Bool)) (m : GeoMap)
    (l : Nat) : GRes (GeoMap × List Bool) := do
  let n ← reqSt m (m.node l) "removeIsolatedNode: node not initialized"
  let results := hooks.map (fun h => h n)
  return (m.uninitializeNodeObj n, results)

/-! ## `Node::setPosition` (translated verbatim, including the loop) -/

/-- One iteration of the `setPosition` update loop, exactly as in the
source: the branch condition is `i > 0` (the loop index, not the dart
sign) and the edge is looked up by `i` (for `i > 0`) resp. `-i = 0`
(for `i == 0`); dereferencing the null edge slot 0 is the modelled crash. -/
def GeoMap.setPositionStep (p : V2) (mm : GRes GeoMap) (i : Nat) : GRes GeoMap := do
  let m ← mm
  if i > 0 then
    let e ← reqSt m (m.edge i) "setPosition: dereferencing null edge"
    return m.setEdge i (some { e with points := e.points.set 0 p })
  else
    let e ← reqSt m (m.edge 0) "setPosition: dereferencing null edge"
    return m.setEdge 0 (some { e with points := e.points.set (e.points.length - 1) p })

/-- `GeoMap::Node::setPosition(p)`: erase from the positioned index,
overwrite the position, run the (faulty) endpoint-update loop over the
dart-list indices, re-insert into the index. -/
def GeoMap.setPosition (m : GeoMap) (l : Nat) (p : V2) : GRes GeoMap := do
  let n ← reqSt m (m.node l) "setPosition() of uninitialized node!"
  let m := { m with nodeMap := m.nodeMap.eraseP (fun q => q.1 == n.position) }
  let m := m.setNode l (some { n with position := p })
  let m ← (List.range n.darts.length).foldl (GeoMap.setPositionStep p) (.ok m)
  return { m with nodeMap := (p, l) :: m.nodeMap }

/-! ## `GeoMap::mergeEdges` -/

/-- The per-face anchor fix-up loop at the top of `mergeEdges`: advance
the first anchor whose edge is the merged edge by one phi step (then
`break`). -/
def GeoMap.advanceAnchorList (m : GeoMap) (mergedEdgeLabel : Nat) :
    List Int → Option (List Int)
  | [] => some []
  | a :: rest =>
    if a.natAbs = mergedEdgeLabel then (m.nextPhi a).map (fun a' => a' :: rest)
    else (m.advanceAnchorList mergedEdgeLabel rest).map (fun r => a :: r)

/-- Apply `advanceAnchorList` to the face in slot `fl`. -/
def GeoMap.adjustFaceAnchors (m : GeoMap) (fl mergedEdgeLabel : Nat) : GRes GeoMap := do
  let f ← reqSt m (m.face fl) "mergeEdges: dereferencing null face"
  let anchors' ← reqSt m (m.advanceAnchorList mergedEdgeLabel f.anchors)
      "Dart not attached to its startnode??"
  return m.setFace fl (some { f with anchors := anchors' })

/-- `GeoMap::mergeEdges(dart)`, translated statement by statement:
`d1 = dart; d1.nextSigma()` (so `d1` is one sigma step FROM the argument),
self-loop and degree-2 preconditions, the `vigra_assert` face checks, the
anchor fix-up on both adjacent faces, locating the changing dart at the
far end node, the four-way polygon concatenation, the dart rewrite at the
far node, and finally uninitializing the common node and `d2`'s
(= the argument's) edge.  The label-image block is the skipped
`labelImage_ == NULL` path and the hook lists are empty. -/
def GeoMap.mergeEdges (m : GeoMap) (dart : Int) : GRes (GeoMap × Nat) := do
  let d1 ← reqSt m (m.nextSigma dart) "Dart not attached to its startnode??"
  let _ ← checkSt m (d1.natAbs ≠ dart.natAbs) "mergeEdges called on self-loop!"
  let d2 ← reqSt m (m.nextSigma d1) "Dart not attached to its startnode??"
  let _ ← checkSt m (d2 = dart) "mergeEdges cannot remove node with degree > 2!"
  let d1l ← reqSt m (m.dartLeftFaceLabel d1)
      "Cannot operate on invalid dart belonging to removed edge!"
  let d1r ← reqSt m (m.dartRightFaceLabel d1)
      "Cannot operate on invalid dart belonging to removed edge!"
  let d2l ← reqSt m (m.dartLeftFaceLabel d2)
      "Cannot operate on invalid dart belonging to removed edge!"
  let d2r ← reqSt m (m.dartRightFaceLabel d2)
      "Cannot operate on invalid dart belonging to removed edge!"
  let _ ← checkSt m (d1l = d2r) "mergeEdges: broken map"
  let _ ← checkSt m (d2l = d1r) "mergeEdges: broken map"
  let _ ← reqSt m (m.face d2l) "mergeEdges: dereferencing null face"
  let _ ← reqSt m (m.face d2r) "mergeEdges: dereferencing null face"
  let m1 ← m.adjustFaceAnchors d2l dart.natAbs
  let m2 ← m1.adjustFaceAnchors d2r dart.natAbs
  let mergedNodeLabel ← reqSt m2 (m2.dartStartNodeLabel d1)
      "Cannot operate on invalid dart belonging to removed edge!"
  let mergedNode ← reqSt m2 (m2.node mergedNodeLabel) "mergeEdges: dereferencing null node"
  let survivor ← reqSt m2 (m2.dartEdge d1)
      "Cannot operate on invalid dart belonging to removed edge!"
  let mergedEdge ← reqSt m2 (m2.dartEdge d2)
      "Cannot operate on invalid dart belonging to removed edge!"
  let changedEndNodeLabel ← reqSt m2 (m2.dartStartNodeLabel (-d2))
      "Cannot operate on invalid dart belonging to removed edge!"
  let changedEndNode ← reqSt m2 (m2.node changedEndNodeLabel)
      "mergeEdges: dereferencing null node"
  let cenDartIndex ← reqSt m2 (idxOfFirst (-d2) changedEndNode.darts)
      "changing dart not found at node"
  let newSurvivor :=
    if survivor.startNodeLabel ≠ mergedNode.label then
      let mPts := if mergedEdge.startNodeLabel ≠ mergedNode.label
        then mergedEdge.points.reverse else mergedEdge.points
      { survivor with
          points := survivor.points ++ mPts
          endNodeLabel := changedEndNode.label }
    else
      let mPts := if mergedEdge.startNodeLabel ≠ mergedNode.label
        then mergedEdge.points.reverse else mergedEdge.points
      { survivor with
          points := (survivor.points.reverse ++ mPts).reverse
          startNodeLabel := changedEndNode.label }
  let m3 := m2.setEdge d1.natAbs (some newSurvivor)
  let m4 := m3.modifyNode changedEndNodeLabel
      (fun n => { n with darts := n.darts.set cenDartIndex d1 })
  let m5 := m4.uninitializeNodeObj mergedNode
  let m6 := m5.uninitializeEdge mergedEdge.label
  return (m6, survivor.label)

/-! ## `Face::findComponentAnchor` -/

/-- The second-pass walk of `findComponentAnchor`: starting at `anchor`,
repeatedly advance by phi; `false` when the walk returns to `anchor`
without meeting `target`, `true` when `target` is met first (`none` when
the walk breaks or exceeds `fuel`; the C++ loop would not terminate). -/
def GeoMap.orbitSearch (m : GeoMap) (anchor target : Int) :
    Nat → Int → Option Bool
  | 0, _ => none
  | fuel + 1, cur =>
    match m.nextPhi cur with
    | none => none
    | some d' =>
      if d' = anchor then some false
      else if d' = target then some true
      else m.orbitSearch anchor target fuel d'

/-- Second pass over the anchors, with their indices. -/
def GeoMap.findAnchorInOrbits (m : GeoMap) (target : Int) (fuel : Nat) :
    Nat → List Int → Option Nat
  | _, [] => none
  | i, a :: rest =>
    match m.orbitSearch a target fuel a with
    | none => none
    | some true => some i
    | some false => m.findAnchorInOrbits target fuel (i + 1) rest

/-- `GeoMap::Face::findComponentAnchor(dart)`: first pass compares the
anchors to the dart directly (dart equality is label equality), the
second pass walks each anchor's phi-orbit; not-found is the
`vigra_fail` path. -/
def GeoMap.findComponentAnchor (m : GeoMap) (f : GeoMap.Face) (dart : Int)
    (fuel : Nat) : Option Nat :=
  match idxOfFirst dart f.anchors with
  | some i => some i
  | none => m.findAnchorInOrbits dart fuel 0 f.anchors

/-! ## `GeoMap::removeBridge` -/

/-- The `contourIndex == 0` outer-anchor determination of `removeBridge`:
`newAnchor1.edgeLabel() == dart.edgeLabel() || newAnchor2.edgeLabel() !=
dart.edgeLabel() && contourArea(newAnchor1) < contourArea(newAnchor2)`,
with C++ short-circuit evaluation (the contour areas are only computed in
the second disjunct). -/
def GeoMap.bridgeOuterSwap (m2 : GeoMap) (contourIndex : Nat)
    (newAnchor1 newAnchor2 : Int) (edgeLabel : Nat) (fuel : Nat) : GRes Bool :=
  if contourIndex = 0 then
    if newAnchor1.natAbs = edgeLabel then pure true
    else if newAnchor2.natAbs ≠ edgeLabel then do
      let ca1 ← reqSt m2 (m2.contourArea newAnchor1 fuel) "contourArea diverged"
      let ca2 ← reqSt m2 (m2.contourArea newAnchor2 fuel) "contourArea diverged"
      pure (decide (ca1 < ca2))
    else pure false
  else pure false

/-- The "remove singular nodes" step of `removeBridge`: if the split-off
anchor still lies on the removed edge, the corresponding end node has
become isolated — remove it and drop its anchor entry (`trim`). -/
def GeoMap.removeCollapsedEnd (mm : GeoMap) (a : Int) (edgeLabel lfl : Nat)
    (trim : List Int → List Int) : GRes GeoMap :=
  if a.natAbs = edgeLabel then do
    let snl ← reqSt mm (mm.dartStartNodeLabel a)
        "Cannot operate on invalid dart belonging to removed edge!"
    let sn ← reqSt mm (mm.node snl) "removeBridge: dereferencing null node"
    pure ((mm.uninitializeNodeObj sn).modifyFace lfl
      (fun f => { f with anchors := trim f.anchors }))
  else pure mm

/-- The anchor-reuse chain of `mergeFaces`: advance the survivor-side
anchor past the merged edge, falling back to the merged face's anchor
(likewise advanced) if it collapses. -/
def GeoMap.reuseAnchor (m1 : GeoMap) (a0 : Int) (mergedEdgeLabel : Nat)
    (b0 : Int) : GRes Int :=
  if a0.natAbs = mergedEdgeLabel then do
    let a1 ← reqSt m1 (m1.nextPhi a0) "Dart not attached to its startnode??"
    if a1.natAbs = mergedEdgeLabel then
      if b0.natAbs = mergedEdgeLabel then do
        let b1 ← reqSt m1 (m1.nextPhi b0) "Dart not attached to its startnode??"
        pure b1
      else pure b0
    else pure a1
  else pure a0

/-- The anchor-validity check of `mergeFaces`: a still-collapsed anchor is
only legal for a self-loop (`vigra_precondition`), in which case the
degenerate contour entry is dropped. -/
def GeoMap.checkSelfLoopAnchors (m2 : GeoMap) (chosen : Int) (mergedEdgeLabel : Nat)
    (lab1 lab2 : Nat) (anchors : List Int) (idx : Nat) : GRes (List Int) :=
  if chosen.natAbs = mergedEdgeLabel then do
    let _ ← checkSt m2 (lab1 = lab2) "special-case: merging a self-loop"
    pure (anchors.eraseIdx idx)
  else pure anchors

/-- `GeoMap::removeBridge(dart)`, translated statement by statement:
bridge and non-loop preconditions, the two new anchors `prevSigma(dart)`
and `prevSigma(-dart)`, locating the boundary component, erasing the two
darts from the end nodes, the outer-anchor swap for component 0 (with the
`||`/`&&` short-circuit of the source, comparing contour areas on the
already-erased map), splitting the component into two anchors, removing
end nodes whose anchor collapsed onto the removed edge, and finally
uninitializing the edge.  Label image: skipped `labelImage_ == NULL`
path; hook lists empty. -/
def GeoMap.removeBridge (m : GeoMap) (dart : Int) (fuel : Nat) : GRes (GeoMap × Nat) := do
  let edge ← reqSt m (m.dartEdge dart)
      "Cannot operate on invalid dart belonging to removed edge!"
  let lfl ← reqSt m (m.dartLeftFaceLabel dart)
      "Cannot operate on invalid dart belonging to removed edge!"
  let face ← reqSt m (m.face lfl) "removeBridge: dereferencing null face"
  let rfl' ← reqSt m (m.dartRightFaceLabel dart)
      "Cannot operate on invalid dart belonging to removed edge!"
  let rface ← reqSt m (m.face rfl') "removeBridge: dereferencing null face"
  let _ ← checkSt m (face.label = rface.label) "removeBridge needs a bridge dart!"
  let n1l ← reqSt m (m.dartStartNodeLabel dart)
      "Cannot operate on invalid dart belonging to removed edge!"
  let node1 ← reqSt m (m.node n1l) "removeBridge: dereferencing null node"
  let n2l ← reqSt m (m.dartEndNodeLabel dart)
      "Cannot operate on invalid dart belonging to removed edge!"
  let node2 ← reqSt m (m.node n2l) "removeBridge: dereferencing null node"
  let _ ← checkSt m (node1.label ≠ node2.label)
      "Inconsistent map: bridge to be removed is also a self-loop!?"
  let newAnchor1 ← reqSt m (m.prevSigma dart) "Dart not attached to its startnode??"
  let newAnchor2 ← reqSt m (m.prevSigma (-dart)) "Dart not attached to its startnode??"
  let contourIndex ← reqSt m (m.findComponentAnchor face dart fuel)
      "findComponentAnchor failed: dart not found in face contours!"
  let m1 := m.modifyNode n1l (fun n => { n with darts := n.darts.erase dart })
  let m2 := m1.modifyNode n2l (fun n => { n with darts := n.darts.erase (-dart) })
  let doSwap ← m2.bridgeOuterSwap contourIndex newAnchor1 newAnchor2 dart.natAbs fuel
  let a1 := if doSwap then newAnchor2 else newAnchor1
  let a2 := if doSwap then newAnchor1 else newAnchor2
  let m3 := m2.modifyFace lfl
      (fun f => { f with anchors := (f.anchors.set contourIndex a1) ++ [a2] })
  let m4 ← m3.removeCollapsedEnd a1 dart.natAbs lfl (fun l => l.eraseIdx contourIndex)
  let m5 ← m4.removeCollapsedEnd a2 dart.natAbs lfl (fun l => l.dropLast)
  let m6 := m5.uninitializeEdge edge.label
  return (m6, face.label)

/-! ## `GeoMap::mergeFaces` -/

/-- The inner while loop of the contour re-assignment in `mergeFaces`:
advance by phi and overwrite the advanced dart's left face label until a
dart already carrying the survivor's label is met. -/
def GeoMap.repaintOrbit (survLbl : Nat) : Nat → GeoMap → Int → GRes GeoMap
  | 0, mm, _ => .error ("mergeFaces: left-face re-assignment diverged", mm)
  | fuel + 1, mm, d => do
    let d' ← reqSt mm (mm.nextPhi d) "Dart not attached to its startnode??"
    let l ← reqSt mm (mm.dartLeftFaceLabel d')
        "Cannot operate on invalid dart belonging to removed edge!"
    if l = survLbl then return mm
    else GeoMap.repaintOrbit survLbl fuel (mm.setDartLeftFaceLabel d' survLbl) d'

/-- The outer loop over the merged face's anchors. -/
def GeoMap.repaintAnchors (survLbl : Nat) (fuel : Nat) :
    GeoMap → List Int → GRes GeoMap
  | mm, [] => .ok mm
  | mm, a :: rest => do
    let mm' ← GeoMap.repaintOrbit survLbl fuel mm a
    GeoMap.repaintAnchors survLbl fuel mm' rest

/-- `GeoMap::mergeFaces(dart)`, translated statement by statement:
survivor selection (flip to the larger-area side, then flip again so that
face 0 survives), the bridge precondition, locating both components, left
face re-assignment along the merged face's contours, the anchor-reuse
chain with the self-loop special case, appending the merged face's other
anchors, erasing the two darts at the end nodes, removing end nodes that
became isolated, and uninitializing the merged edge and face.  The
cached-area/bbox updates and `faceLabelLUT`/label-image block
(`labelImage_ == NULL` path) carry no claim; hook lists empty. -/
def GeoMap.mergeFaces (m : GeoMap) (dart : Int) (fuel : Nat) : GRes (GeoMap × Nat) := do
  let lfl0 ← reqSt m (m.dartLeftFaceLabel dart)
      "Cannot operate on invalid dart belonging to removed edge!"
  let lf ← reqSt m (m.face lfl0) "mergeFaces: dereferencing null face"
  let rfl0 ← reqSt m (m.dartRightFaceLabel dart)
      "Cannot operate on invalid dart belonging to removed edge!"
  let rf ← reqSt m (m.face rfl0) "mergeFaces: dereferencing null face"
  let la ← reqSt m (m.faceArea lf fuel) "mergeFaces: area computation diverged"
  let ra ← reqSt m (m.faceArea rf fuel) "mergeFaces: area computation diverged"
  let rd1 := if la < ra then -dart else dart
  let rdr ← reqSt m (m.dartRightFaceLabel rd1)
      "Cannot operate on invalid dart belonging to removed edge!"
  let removedDart := if rdr = 0 then -rd1 else rd1
  let mergedEdge ← reqSt m (m.dartEdge removedDart)
      "Cannot operate on invalid dart belonging to removed edge!"
  let sLbl ← reqSt m (m.dartLeftFaceLabel removedDart)
      "Cannot operate on invalid dart belonging to removed edge!"
  let survivor ← reqSt m (m.face sLbl) "mergeFaces: dereferencing null face"
  let mLbl ← reqSt m (m.dartRightFaceLabel removedDart)
      "Cannot operate on invalid dart belonging to removed edge!"
  let mergedFace ← reqSt m (m.face mLbl) "mergeFaces: dereferencing null face"
  let n1l ← reqSt m (m.dartStartNodeLabel removedDart)
      "Cannot operate on invalid dart belonging to removed edge!"
  let node1 ← reqSt m (m.node n1l) "mergeFaces: dereferencing null node"
  let n2l ← reqSt m (m.dartEndNodeLabel removedDart)
      "Cannot operate on invalid dart belonging to removed edge!"
  let node2 ← reqSt m (m.node n2l) "mergeFaces: dereferencing null node"
  let _ ← checkSt m (survivor.label ≠ mergedFace.label)
      "mergeFaces(): dart belongs to a bridge!"
  let contour1 ← reqSt m (m.findComponentAnchor survivor removedDart fuel)
      "findComponentAnchor failed: dart not found in face contours!"
  let contour2 ← reqSt m (m.findComponentAnchor mergedFace (-removedDart) fuel)
      "findComponentAnchor failed: dart not found in face contours!"
  let m1 ← GeoMap.repaintAnchors survivor.label fuel m mergedFace.anchors
  let chosen ← m1.reuseAnchor (survivor.anchors.getD contour1 0) mergedEdge.label
      (mergedFace.anchors.getD contour2 0)
  let survAnchors := survivor.anchors.set contour1 chosen
  let m2 := m1.setFace sLbl (some { survivor with anchors := survAnchors })
  let survAnchors' ← m2.checkSelfLoopAnchors chosen mergedEdge.label
      node1.label node2.label survAnchors contour1
  let m3 := m2.setFace sLbl
      (some { survivor with anchors := survAnchors' ++ mergedFace.anchors.eraseIdx contour2 })
  let m4 := m3.modifyNode n1l (fun n => { n with darts := n.darts.erase removedDart })
  let m5 := m4.modifyNode n2l (fun n => { n with darts := n.darts.erase (-removedDart) })
  let removeNode1 := m5.degree n1l = 0
  let m6 := if m5.degree n2l = 0 ∧ node2.label ≠ node1.label
    then m5.uninitializeNodeObj node2 else m5
  let m7 := if removeNode1 then m6.uninitializeNodeObj node1 else m6
  let m8 := m7.uninitializeEdge mergedEdge.label
  let m9 := m8.uninitializeFace mergedFace.label
  return (m9, survivor.label)

/-! ## Counts and invariant measures -/

/-- Number of live (non-null) slots; the source keeps this in the
`nodeCount_`/`edgeCount_`/`faceCount_` counters. -/
def liveCount {α : Type} (l : List (Option α)) : Nat :=
  l.countP (fun s => s.isSome)

def GeoMap.nodeCount (m : GeoMap) : Nat := liveCount m.nodes

def GeoMap.edgeCount (m : GeoMap) : Nat := liveCount m.edges

def GeoMap.faceCount (m : GeoMap) : Nat := liveCount m.faces

/-- Sum of `degree()` over all live nodes. -/
def GeoMap.degreeSum (m : GeoMap) : Nat :=
  (m.nodes.map (fun s => match s with | none => 0 | some n => n.darts.length)).sum

/-- Number of live self-loop edges (`isLoop ⇔ start == end`). -/
def GeoMap.selfLoopCount (m : GeoMap) : Nat :=
  m.edges.countP (fun s =>
    match s with
    | none => false
    | some e => e.startNodeLabel == e.endNodeLabel)

/-- Node-side structural consistency at slot `i` (invariant (I1) plus
label/index agreement and duplicate-freeness of the sigma orbit). -/
def GeoMap.nodeOk (m : GeoMap) (i : Nat) (n : GeoMap.Node) : Bool :=
  n.label == i &&
  decide n.darts.Nodup &&
  n.darts.all (fun d =>
    d != 0 &&
    match m.edge d.natAbs with
    | none => false
    | some e =>
      (if d > 0 then e.startNodeLabel == i else true) &&
      (if d < 0 then e.endNodeLabel == i else true))

/-- Edge-side structural consistency at slot `i`: label/index agreement
and presence of both darts in the respective end nodes' orbits. -/
def GeoMap.edgeOk (m : GeoMap) (i : Nat) (e : GeoMap.Edge) : Bool :=
  e.label == i &&
  (match m.node e.startNodeLabel with
   | none => false
   | some ns => decide ((i : Int) ∈ ns.darts)) &&
  (match m.node e.endNodeLabel with
   | none => false
   | some ne => decide ((-(i : Int)) ∈ ne.darts))

/-- Structural well-formedness of a map: every live node satisfies
`nodeOk`, every live edge `edgeOk`, and every live face carries its slot
index as label.  This is the node/edge part of the spec's invariants
(I1) together with label-stability; phi-orbit consistency (I3) is not
required by any theorem below. -/
def GeoMap.wellFormedB (m : GeoMap) : Bool :=
  ((List.range m.nodes.length).all fun i =>
    match m.node i with
    | none => true
    | some n => m.nodeOk i n) &&
  ((List.range m.edges.length).all fun i =>
    match m.edge i with
    | none => true
    | some e => m.edgeOk i e) &&
  ((List.range m.faces.length).all fun i =>
    match m.face i with
    | none => true
    | some f => f.label == i)

/-! ## The checkpointing pyramid (`cellpyramid.hxx`)

`CellPyramid<SEGMENTATION, CELLSTATISTICS>` is a template; the embedding
is parametric in the segmentation type `Seg` and a primitive-operation
payload `Op` (standing for `(OperationType, serialized dart)`), with the
replay of one primitive given by a `step` function and the
`nodeCount()+edgeCount()+faceCount()` total given by `cellCount`. -/

/-- A history entry (`struct Operation`): a primitive operation or a
`Composite` with an owned sub-list. -/
inductive HistOp (Op : Type) where
  | prim (o : Op)
  | comp (ops : List (HistOp Op))

/-- A pyramid `Level`: level index, subindex, and the owned segmentation
snapshot (cell statistics carry no claim). -/
structure Level (Seg : Type) where
  index : Nat
  subIndex : Nat
  seg : Seg

/-- Error kinds escaping pyramid entry points: an exception from replay
(`opError`) or a `vigra_precondition` failure inside the pyramid itself
(`contractViolation`). -/
inductive PyrErr where
  | opError (msg : String)
  | contractViolation (msg : String)
deriving DecidableEq

/-- The pyramid state: checkpoint store (an association list; key order
is irrelevant because lookups scan for the maximal key at or below a
bound), history, top level, next scheduled checkpoint subindex, and the
composite-nesting counter `composing_`. -/
structure CellPyramid (Seg Op : Type) where
  checkpoints : List (Nat × Level Seg)
  history : List (HistOp Op)
  top : Level Seg
  nextCheckpointLevelIndex : Nat
  composing : Nat

mutual

/-- `Level::performOperation(op)`: dispatch a primitive through `step`
(incrementing the subindex, as the `...Internal` helpers do), or replay a
composite's sub-list in order. -/
def performOp {Seg Op : Type} (step : Seg → Op → Except String Seg) :
    HistOp Op → Nat × Seg → Except String (Nat × Seg)
  | .prim o, (sub, seg) => (step seg o).map (fun s => (sub + 1, s))
  | .comp l, ss => performOpList step l ss

def performOpList {Seg Op : Type} (step : Seg → Op → Except String Seg) :
    List (HistOp Op) → Nat × Seg → Except String (Nat × Seg)
  | [], ss => .ok ss
  | h :: t, ss =>
    match performOp step h ss with
    | .ok ss' => performOpList step t ss'
    | .error e => .error e

end

/-- The checkpoint with the greatest key at or below `idx`
(`checkpoints_.upper_bound(idx)` followed by `--it`; `none` models the
undefined `--begin()` when every key is above `idx`). -/
def lastCheckpointAtOrBefore {Seg : Type} (cps : List (Nat × Level Seg))
    (idx : Nat) : Option (Level Seg) :=
  cps.foldl (fun acc q =>
    if q.1 ≤ idx then
      match acc with
      | none => some q
      | some b => if q.1 ≥ b.1 then some q else some b
    else acc) none |>.map (fun q => q.2)

/-- The checkpoint with the greatest key (`--checkpoints_.end()`). -/
def lastCheckpoint {Seg : Type} (cps : List (Nat × Level Seg)) : Option (Level Seg) :=
  cps.foldl (fun acc q =>
    match acc with
    | none => some q
    | some b => if q.1 ≥ b.1 then some q else some b) none |>.map (fun q => q.2)

/-- `CellPyramid::storeCheckpoint(level)`: always recompute the next
scheduled checkpoint subindex as `subIndex + max(totalCells/4, 10)`,
insert the level only if its index is not yet present. -/
def storeCheckpoint {Seg Op : Type} (cellCount : Seg → Nat)
    (P : CellPyramid Seg Op) (lv : Level Seg) : CellPyramid Seg Op :=
  let P := { P with nextCheckpointLevelIndex := lv.subIndex + max (cellCount lv.seg / 4) 10 }
  if P.checkpoints.all (fun q => q.1 ≠ lv.index) then
    { P with checkpoints := P.checkpoints ++ [(lv.index, lv)] }
  else P

/-- The `CellPyramid` constructor: top level at index 0 plus its
checkpoint. -/
def CellPyramid.mk0 {Seg Op : Type} (cellCount : Seg → Nat) (seg : Seg) :
    CellPyramid Seg Op :=
  storeCheckpoint cellCount
    { checkpoints := [], history := [], top := ⟨0, 0, seg⟩,
      nextCheckpointLevelIndex := 0, composing := 0 }
    ⟨0, 0, seg⟩

/-- Replay a list of history entries onto a level (`gotoLevel`'s while
loop: one index increment per entry, subindex increments per primitive);
an error carries the level reached when the replay threw. -/
def replayList {Seg Op : Type} (step : Seg → Op → Except String Seg) :
    List (HistOp Op) → Level Seg → Except (String × Level Seg) (Level Seg)
  | [], lv => .ok lv
  | h :: t, lv =>
    match performOp step h (lv.subIndex, lv.seg) with
    | .ok (sub', seg') => replayList step t ⟨lv.index + 1, sub', seg'⟩
    | .error e => .error (e, lv)

/-- `Level::gotoLevel(target)`: jump back to the last checkpoint at or
below `target` unless the current level already lies between that
checkpoint and `target`, then replay forward. -/
def gotoLevel {Seg Op : Type} (step : Seg → Op → Except String Seg)
    (P : CellPyramid Seg Op) (lv : Level Seg) (target : Nat) :
    Except (String × Level Seg) (Level Seg) :=
  let lv1 :=
    match lastCheckpointAtOrBefore P.checkpoints target with
    | none => lv
    | some ck => if lv.index ≤ target ∧ ck.index ≤ lv.index then lv else ck
  replayList step ((P.history.drop lv1.index).take (target - lv1.index)) lv1

/-- `CellPyramid::cutApex()`: drop history entries at index ≥ top and
checkpoints with key > top, then re-store the last remaining checkpoint
(to restore `nextCheckpointLevelIndex_`). -/
def cutApex {Seg Op : Type} (cellCount : Seg → Nat) (P : CellPyramid Seg Op) :
    CellPyramid Seg Op :=
  let P := { P with
      history := P.history.take P.top.index
      checkpoints := P.checkpoints.filter (fun q => q.1 ≤ P.top.index) }
  match lastCheckpoint P.checkpoints with
  | none => P
  | some lv => storeCheckpoint cellCount P lv

/-- `CellPyramid::cutAbove(levelIndex)`: guarded by the
`vigra_precondition(topLevel_.index() == levelCount()-1)` check
(`levelCount() = history_.size() + 1`); then bring the top level down and
truncate. -/
def cutAbove {Seg Op : Type} (step : Seg → Op → Except String Seg)
    (cellCount : Seg → Nat) (P : CellPyramid Seg Op) (levelIndex : Nat) :
    Except (PyrErr × CellPyramid Seg Op) (CellPyramid Seg Op) :=
  if P.top.index ≠ P.history.length then
    .error (.contractViolation "cutAbove(): topLevel_ is not the top level anymore", P)
  else if P.top.index > levelIndex then
    match gotoLevel step P P.top levelIndex with
    | .ok lv => .ok (cutApex cellCount { P with top := lv })
    | .error (e, lv) => .error (.opError e, { P with top := lv })
  else .ok P

/-- `CellPyramid::addAndPerformOperation(t, p)`: outside a composite,
append to the history, replay on the top level, advance the index and
possibly checkpoint; on a throw, call `cutAbove(topLevel_.index())` and
re-raise.  Inside a composite, append to the open composite's sub-list
and replay only, popping the entry on a throw. -/
def addAndPerformOperation {Seg Op : Type} (step : Seg → Op → Except String Seg)
    (cellCount : Seg → Nat) (P : CellPyramid Seg Op) (op : Op) :
    Except (PyrErr × CellPyramid Seg Op) (CellPyramid Seg Op) :=
  if P.composing = 0 then
    let P1 := { P with history := P.history ++ [.prim op] }
    match performOp step (.prim op) (P1.top.subIndex, P1.top.seg) with
    | .ok (sub', seg') =>
      let P2 := { P1 with top := ⟨P1.top.index + 1, sub', seg'⟩ }
      if P2.top.subIndex ≥ P2.nextCheckpointLevelIndex then
        .ok (storeCheckpoint cellCount P2 P2.top)
      else .ok P2
    | .error e =>
      match cutAbove step cellCount P1 P1.top.index with
      | .ok P2 => .error (.opError e, P2)
      | .error (ce, P2) => .error (ce, P2)
  else
    match P.history.getLast? with
    | some (.comp l) =>
      match performOp step (.prim op) (P.top.subIndex, P.top.seg) with
      | .ok (sub', seg') =>
        .ok { P with
                history := P.history.dropLast ++ [.comp (l ++ [.prim op])]
                top := ⟨P.top.index, sub', seg'⟩ }
      | .error e => .error (.opError e, P)
    | _ => .error (.contractViolation
        "addAndPerformOperation: open composite missing from history", P)

/-- `CellPyramid::beginComposite()`: open a new top-level composite when
not already composing, then increment the nesting counter. -/
def beginComposite {Seg Op : Type} (P : CellPyramid Seg Op) : CellPyramid Seg Op :=
  let P1 := if P.composing = 0 then { P with history := P.history ++ [.comp []] } else P
  { P1 with composing := P1.composing + 1 }

/-- `CellPyramid::endComposite()`: decrement the nesting counter; at the
outermost end flatten a one-element composite into that element, advance
the top index and possibly checkpoint. -/
def endComposite {Seg Op : Type} (cellCount : Seg → Nat)
    (P : CellPyramid Seg Op) : CellPyramid Seg Op :=
  let c := P.composing - 1
  if c = 0 then
    let hist' :=
      match P.history.getLast? with
      | some (.comp [o]) => P.history.dropLast ++ [o]
      | _ => P.history
    let P1 := { P with history := hist', composing := 0,
                       top := { P.top with index := P.top.index + 1 } }
    if P1.top.subIndex ≥ P1.nextCheckpointLevelIndex then
      storeCheckpoint cellCount P1 P1.top
    else P1
  else { P with composing := c }

/-! ## Cell comparison semantics (`operator==`)

Value types carrying the owning-map reference, for the comparison
operators only: `Dart::operator==` compares the signed labels alone,
while `Node::operator==` (and likewise `Edge`/`Face`) compares label AND
map pointer. -/

/-- `GeoMap::Dart` as a value type `{map_, label_}`; the map pointer is
modelled as a numeric identity. -/
structure DartH where
  mapId : Nat
  label : Int
deriving DecidableEq

/-- `Dart::operator==`: `label_ == other.label_` — the map reference is
not consulted. -/
def DartH.eqOp (a b : DartH) : Bool := a.label == b.label

/-- `Dart::operator!=`: `label_ != other.label_`. -/
def DartH.neOp (a b : DartH) : Bool := a.label != b.label

/-- The identity of a `GeoMap::Node` for comparison purposes: its label
and its owning-map pointer (null when uninitialized). -/
structure NodeH where
  mapId : Option Nat
  label : Nat
  position : V2
  darts : List Int
deriving DecidableEq

/-- `Node::operator==`: `label() == other.label() && map_ == other.map_`. -/
def NodeH.eqOp (a b : NodeH) : Bool := a.label == b.label && a.mapId == b.mapId

/-! ## Concrete instances

Small maps used to evaluate the operations: a digon (two edges between
two nodes), the triangle of spec scenario S1, a single pendant edge, an
isolated node, a self-loop, and a two-edge map before `initContours`. -/

/-- Digon: nodes 1:(0,0), 2:(1,0); edge 1 from 1 to 2 (straight), edge 2
from 2 to 1 (through (1/2,1)); inner face 1 on the left of both forward
darts, infinite face 0 outside.  Sigma orbits: node 1: [1,-2],
node 2: [-1,2]. -/
def mapDigon : GeoMap :=
  { nodes := [none,
      some { label := 1, position := (0, 0), darts := [1, -2] },
      some { label := 2, position := (1, 0), darts := [-1, 2] }]
    edges := [none,
      some { label := 1, startNodeLabel := 1, endNodeLabel := 2,
             leftFaceLabel := 1, rightFaceLabel := 0,
             points := [(0, 0), (1, 0)] },
      some { label := 2, startNodeLabel := 2, endNodeLabel := 1,
             leftFaceLabel := 1, rightFaceLabel := 0,
             points := [(1, 0), (1/2, 1), (0, 0)] }]
    faces := [some { label := 0, anchors := [-1] },
              some { label := 1, anchors := [1] }]
    nodeMap := [((0, 0), 1), ((1, 0), 2)] }

/-- The result of `mergeEdges mapDigon 1`: edge 2 (the edge one sigma
step from the argument dart) survives as a self-loop at node 2 carrying
the concatenated geometry; node 1 and edge 1 are gone. -/
def mapDigonMerged : GeoMap :=
  { nodes := [none, none,
      some { label := 2, position := (1, 0), darts := [-2, 2] }]
    edges := [none, none,
      some { label := 2, startNodeLabel := 2, endNodeLabel := 2,
             leftFaceLabel := 1, rightFaceLabel := 0,
             points := [(1, 0), (1/2, 1), (0, 0), (0, 0), (1, 0)] }]
    faces := [some { label := 0, anchors := [-2] },
              some { label := 1, anchors := [2] }]
    nodeMap := [((1, 0), 2)] }

/-- The triangle of spec scenario S1: nodes 1:(0,0), 2:(10,0), 3:(5,8),
edges 1:(1→2), 2:(2→3), 3:(3→1); interior face 1 (area 40) and infinite
face 0. -/
def mapTri : GeoMap :=
  { nodes := [none,
      some { label := 1, position := (0, 0), darts := [1, -3] },
      some { label := 2, position := (10, 0), darts := [2, -1] },
      some { label := 3, position := (5, 8), darts := [3, -2] }]
    edges := [none,
      some { label := 1, startNodeLabel := 1, endNodeLabel := 2,
             leftFaceLabel := 1, rightFaceLabel := 0,
             points := [(0, 0), (10, 0)] },
      some { label := 2, startNodeLabel := 2, endNodeLabel := 3,
             leftFaceLabel := 1, rightFaceLabel := 0,
             points := [(10, 0), (5, 8)] },
      some { label := 3, startNodeLabel := 3, endNodeLabel := 1,
             leftFaceLabel := 1, rightFaceLabel := 0,
             points := [(5, 8), (0, 0)] }]
    faces := [some { label := 0, anchors := [-1] },
              some { label := 1, anchors := [1] }]
    nodeMap := [((0, 0), 1), ((10, 0), 2), ((5, 8), 3)] }

/-- The result of `mergeFaces mapTri 1 20`: the infinite face survives
(spec scenario S1), edge 1 and face 1 are uninitialized, edges 2 and 3
have become bridges of face 0. -/
def mapTriMerged : GeoMap :=
  { nodes := [none,
      some { label := 1, position := (0, 0), darts := [-3] },
      some { label := 2, position := (10, 0), darts := [2] },
      some { label := 3, position := (5, 8), darts := [3, -2] }]
    edges := [none, none,
      some { label := 2, startNodeLabel := 2, endNodeLabel := 3,
             leftFaceLabel := 0, rightFaceLabel := 0,
             points := [(10, 0), (5, 8)] },
      some { label := 3, startNodeLabel := 3, endNodeLabel := 1,
             leftFaceLabel := 0, rightFaceLabel := 0,
             points := [(5, 8), (0, 0)] }]
    faces := [some { label := 0, anchors := [-3] }, none]
    nodeMap := [((0, 0), 1), ((10, 0), 2), ((5, 8), 3)] }

/-- A single pendant edge 1:(1→2) with uninitialized face labels (a map
during construction); node 1 has degree 1. -/
def mapPendant : GeoMap :=
  { nodes := [none,
      some { label := 1, position := (0, 0), darts := [1] },
      some { label := 2, position := (1, 0), darts := [-1] }]
    edges := [none,
      some { label := 1, startNodeLabel := 1, endNodeLabel := 2,
             leftFaceLabel := UNINITIALIZED_CELL_LABEL,
             rightFaceLabel := UNINITIALIZED_CELL_LABEL,
             points := [(0, 0), (1, 0)] }]
    faces := []
    nodeMap := [((0, 0), 1), ((1, 0), 2)] }

/-- The state `setPosition mapPendant 2 (2,3)` has reached when it
dereferences the null edge slot 0: the positioned-index entry is erased
and the position is overwritten, but no incident edge has been touched. -/
def mapPendantSetPosErr : GeoMap :=
  { nodes := [none,
      some { label := 1, position := (0, 0), darts := [1] },
      some { label := 2, position := (2, 3), darts := [-1] }]
    edges := [none,
      some { label := 1, startNodeLabel := 1, endNodeLabel := 2,
             leftFaceLabel := UNINITIALIZED_CELL_LABEL,
             rightFaceLabel := UNINITIALIZED_CELL_LABEL,
             points := [(0, 0), (1, 0)] }]
    faces := []
    nodeMap := [((0, 0), 1)] }

/-- A single isolated node 1 at the origin. -/
def mapIsolated : GeoMap :=
  { nodes := [none, some { label := 1, position := (0, 0), darts := [] }]
    edges := [none]
    faces := []
    nodeMap := [((0, 0), 1)] }

/-- `mapIsolated` with node 1 removed. -/
def mapIsolatedRemoved : GeoMap :=
  { nodes := [none, none]
    edges := [none]
    faces := []
    nodeMap := [] }

/-- Geometry of the self-loop used for the degree-sum counterexample. -/
def loopPts : List V2 := [(0, 0), (1, 1), (0, 2), (0, 0)]

/-- The map obtained by `addNode (0,0)` followed by
`addEdge 1 1 loopPts` on the empty map: one node carrying both darts of
a self-loop edge. -/
def mapLoop : GeoMap :=
  { nodes := [none, some { label := 1, position := (0, 0), darts := [1, -1] }]
    edges := [none,
      some { label := 1, startNodeLabel := 1, endNodeLabel := 1,
             leftFaceLabel := UNINITIALIZED_CELL_LABEL,
             rightFaceLabel := UNINITIALIZED_CELL_LABEL,
             points := loopPts }]
    faces := []
    nodeMap := [((0, 0), 1)] }

/-- Two edges 1,2 from node 1 to node 2 before `initContours` (both face
labels still `UNINITIALIZED_CELL_LABEL`, so `isBridge()` is true for
both).  Reachable by two `addNode` and two `addEdge` calls. -/
def mapTwoEdges : GeoMap :=
  { nodes := [none,
      some { label := 1, position := (0, 0), darts := [1, 2] },
      some { label := 2, position := (1, 0), darts := [-1, -2] }]
    edges := [none,
      some { label := 1, startNodeLabel := 1, endNodeLabel := 2,
             leftFaceLabel := UNINITIALIZED_CELL_LABEL,
             rightFaceLabel := UNINITIALIZED_CELL_LABEL,
             points := [(0, 0), (1, 0)] },
      some { label := 2, startNodeLabel := 1, endNodeLabel := 2,
             leftFaceLabel := UNINITIALIZED_CELL_LABEL,
             rightFaceLabel := UNINITIALIZED_CELL_LABEL,
             points := [(0, 0), (1/2, 1), (1, 0)] }]
    faces := []
    nodeMap := [((1, 0), 2), ((0, 0), 1)] }

/-- A replay step that always throws. -/
def stepFail : Nat → Unit → Except String Nat :=
  fun _ _ => .error "replay failed"

/-- A replay step that always succeeds. -/
def stepOk : Nat → Unit → Except String Nat :=
  fun s _ => .ok (s + 1)

/-- Total cell count for the toy segmentation. -/
def cellCountZero : Nat → Nat := fun _ => 0

/-- A freshly constructed pyramid over the toy segmentation `7`: empty
history, top level at index 0, its checkpoint stored, next checkpoint
scheduled at subindex `max(0/4,10) = 10`. -/
def pyrStart : CellPyramid Nat Unit :=
  CellPyramid.mk0 cellCountZero 7

/-- The state `addAndPerformOperation stepFail cellCountZero pyrStart ()`
leaves behind when the replay throws: the freshly appended history entry
is still present (`cutAbove`'s own precondition fails before any
truncation), so `top.index = 0 ≠ 1 = history.length`. -/
def pyrC4bad : CellPyramid Nat Unit :=
  { checkpoints := [(0, ⟨0, 0, 7⟩)]
    history := [.prim ()]
    top := ⟨0, 0, 7⟩
    nextCheckpointLevelIndex := 10
    composing := 0 }

/-! ## Helper lemmas: result inversion -/

theorem gm_exceptBind_ok {ε α β : Type} {e : Except ε α} {f : α → Except ε β} {v : β} :
    e >>= f = Except.ok v ↔ ∃ a, e = Except.ok a ∧ f a = Except.ok v := by
  show Except.bind e f = Except.ok v ↔ _
  cases e <;> simp [Except.bind]

theorem gm_exceptBind_error {ε α β : Type} {e : Except ε α} {f : α → Except ε β} {err : ε} :
    e >>= f = Except.error err ↔
      e = Except.error err ∨ ∃ a, e = Except.ok a ∧ f a = Except.error err := by
  show Except.bind e f = Except.error err ↔ _
  cases e <;> simp [Except.bind]

theorem gm_reqSt_ok {α : Type} {st : GeoMap} {o : Option α} {msg : String} {a : α} :
    reqSt st o msg = Except.ok a ↔ o = some a := by
  cases o <;> simp [reqSt]

theorem gm_reqSt_error {α : Type} {st : GeoMap} {o : Option α} {msg : String}
    {err : String × GeoMap} :
    reqSt st o msg = Except.error err ↔ o = none ∧ err = (msg, st) := by
  cases o <;> simp [reqSt, eq_comm]

theorem gm_checkSt_ok {st : GeoMap} {b : Prop} [Decidable b] {msg : String} {u : Unit} :
    checkSt st b msg = Except.ok u ↔ b := by
  by_cases h : b <;> simp [checkSt, h]

theorem gm_checkSt_error {st : GeoMap} {b : Prop} [Decidable b] {msg : String}
    {err : String × GeoMap} :
    checkSt st b msg = Except.error err ↔ ¬ b ∧ err = (msg, st) := by
  by_cases h : b <;> simp [checkSt, h, eq_comm]

theorem gm_pure_ok {ε α : Type} {x v : α} :
    (pure x : Except ε α) = Except.ok v ↔ x = v := by
  simp [pure, Except.pure]

/-! ## Helper lemmas: lists -/

theorem gm_getD_some_lt {α : Type} {l : List (Option α)} {i : Nat} {a : α}
    (h : l.getD i none = some a) : i < l.length := by
  by_contra hge
  rw [List.getD_eq_getElem?_getD, List.getElem?_eq_none (by omega)] at h
  simp at h

theorem gm_getD_set_self {α : Type} {l : List α} {i : Nat} {a d : α}
    (h : i < l.length) : (l.set i a).getD i d = a := by
  rw [List.getD_eq_getElem?_getD, List.getElem?_set_self (by simpa using h)]
  rfl

theorem gm_getD_set_ne {α : Type} {l : List α} {i j : Nat} {a d : α}
    (h : i ≠ j) : (l.set i a).getD j d = l.getD j d := by
  rw [List.getD_eq_getElem?_getD, List.getElem?_set_ne h, ← List.getD_eq_getElem?_getD]

theorem gm_sum_map_set {α : Type} (f : α → Nat) :
    ∀ (l : List α) (i : Nat) (a : α) (h : i < l.length),
      ((l.set i a).map f).sum + f (l.get ⟨i, h⟩) = (l.map f).sum + f a
  | x :: xs, 0, a, _ => by simp [Nat.add_comm, Nat.add_left_comm]
  | x :: xs, i + 1, a, h => by
    have ih := gm_sum_map_set f xs i a (by simpa using h)
    simp only [List.set, List.map, List.sum_cons, List.get]
    omega

theorem gm_countP_set {α : Type} (p : α → Bool) :
    ∀ (l : List α) (i : Nat) (a : α) (h : i < l.length),
      (l.set i a).countP p + (if p (l.get ⟨i, h⟩) then 1 else 0) =
        l.countP p + (if p a then 1 else 0)
  | x :: xs, 0, a, _ => by
    simp only [List.set, List.countP_cons, List.get]
    by_cases hx : p x <;> by_cases ha : p a <;> simp [hx, ha] <;> omega
  | x :: xs, i + 1, a, h => by
    have ih := gm_countP_set p xs i a (by simpa using h)
    simp only [List.get_eq_getElem] at ih
    simp only [List.set, List.countP_cons, List.get_eq_getElem, List.getElem_cons_succ]
    by_cases hx : p x <;> simp [hx] <;> omega

theorem gm_range_all {n : Nat} {p : Nat → Bool} (h : (List.range n).all p = true)
    {i : Nat} (hi : i < n) : p i = true := by
  rw [List.all_eq_true] at h
  exact h i (List.mem_range.mpr hi)

/-! ## Helper lemmas: well-formedness extraction -/

theorem gm_wf_node {m : GeoMap} (h : m.wellFormedB = true) {l : Nat} {n : GeoMap.Node}
    (hn : m.node l = some n) : m.nodeOk l n = true := by
  have hlt : l < m.nodes.length := gm_getD_some_lt hn
  rw [GeoMap.wellFormedB, Bool.and_eq_true, Bool.and_eq_true] at h
  have := gm_range_all h.1.1 hlt
  rw [hn] at this
  exact this

theorem gm_wf_edge {m : GeoMap} (h : m.wellFormedB = true) {l : Nat} {e : GeoMap.Edge}
    (he : m.edge l = some e) : m.edgeOk l e = true := by
  have hlt : l < m.edges.length := gm_getD_some_lt he
  rw [GeoMap.wellFormedB, Bool.and_eq_true, Bool.and_eq_true] at h
  have := gm_range_all h.1.2 hlt
  rw [he] at this
  exact this

theorem gm_wf_face {m : GeoMap} (h : m.wellFormedB = true) {l : Nat} {f : GeoMap.Face}
    (hf : m.face l = some f) : f.label = l := by
  have hlt : l < m.faces.length := gm_getD_some_lt hf
  rw [GeoMap.wellFormedB, Bool.and_eq_true, Bool.and_eq_true] at h
  have := gm_range_all h.2 hlt
  rw [hf] at this
  simpa using this

theorem gm_nodeOk_label {m : GeoMap} {l : Nat} {n : GeoMap.Node}
    (h : m.nodeOk l n = true) : n.label = l := by
  rw [GeoMap.nodeOk, Bool.and_eq_true, Bool.and_eq_true] at h
  simpa using h.1.1

theorem gm_nodeOk_nodup {m : GeoMap} {l : Nat} {n : GeoMap.Node}
    (h : m.nodeOk l n = true) : n.darts.Nodup := by
  rw [GeoMap.nodeOk, Bool.and_eq_true, Bool.and_eq_true] at h
  simpa using h.1.2

theorem gm_nodeOk_dart {m : GeoMap} {l : Nat} {n : GeoMap.Node}
    (h : m.nodeOk l n = true) {d : Int} (hd : d ∈ n.darts) :
    d ≠ 0 ∧ ∃ e, m.edge d.natAbs = some e ∧
      (d > 0 → e.startNodeLabel = l) ∧ (d < 0 → e.endNodeLabel = l) := by
  rw [GeoMap.nodeOk, Bool.and_eq_true, Bool.and_eq_true] at h
  have := (List.all_eq_true.mp h.2) d hd
  rw [Bool.and_eq_true] at this
  refine ⟨by simpa using this.1, ?_⟩
  rcases he : m.edge d.natAbs with _ | e
  · rw [he] at this; simp at this
  · rw [he] at this
    refine ⟨e, rfl, ?_, ?_⟩
    · intro hpos
      have := this.2
      rw [Bool.and_eq_true, if_pos hpos] at this
      simpa using this.1
    · intro hneg
      have := this.2
      rw [Bool.and_eq_true, if_pos hneg] at this
      simpa using this.2

theorem gm_edgeOk_label {m : GeoMap} {l : Nat} {e : GeoMap.Edge}
    (h : m.edgeOk l e = true) : e.label = l := by
  rw [GeoMap.edgeOk, Bool.and_eq_true, Bool.and_eq_true] at h
  simpa using h.1.1

theorem gm_edgeOk_darts {m : GeoMap} {l : Nat} {e : GeoMap.Edge}
    (h : m.edgeOk l e = true) :
    (∃ ns, m.node e.startNodeLabel = some ns ∧ (l : Int) ∈ ns.darts) ∧
    (∃ ne, m.node e.endNodeLabel = some ne ∧ (-(l : Int)) ∈ ne.darts) := by
  rw [GeoMap.edgeOk, Bool.and_eq_true, Bool.and_eq_true] at h
  constructor
  · rcases hs : m.node e.startNodeLabel with _ | ns
    · have := h.1.2; rw [hs] at this; simp at this
    · have := h.1.2; rw [hs] at this
      exact ⟨ns, rfl, by simpa using this⟩
  · rcases hs : m.node e.endNodeLabel with _ | ne
    · have := h.2; rw [hs] at this; simp at this
    · have := h.2; rw [hs] at this
      exact ⟨ne, rfl, by simpa using this⟩

/-- The start-node label of any dart in a well-formed node's orbit is
that node's slot. -/
theorem gm_wf_dart_startNode {m : GeoMap} (hwf : m.wellFormedB = true)
    {l : Nat} {n : GeoMap.Node} (hn : m.node l = some n)
    {d : Int} (hd : d ∈ n.darts) : m.dartStartNodeLabel d = some l := by
  obtain ⟨hne, e, he, hpos, hneg⟩ := gm_nodeOk_dart (gm_wf_node hwf hn) hd
  rw [GeoMap.dartStartNodeLabel, GeoMap.dartEdge, he]
  rcases lt_trichotomy d 0 with hlt | heq | hgt
  · simp [not_lt.mpr hlt.le, hlt.not_lt, hneg hlt]
  · exact absurd heq hne
  · simp [hgt, hpos hgt]

/-! ## Helper lemmas: `idxOfFirst` and the sigma rotation -/

theorem gm_idxOfFirst_lt {x : Int} :
    ∀ {l : List Int} {i : Nat}, idxOfFirst x l = some i → i < l.length
  | [], i, h => by simp [idxOfFirst] at h
  | y :: ys, i, h => by
    rw [idxOfFirst] at h
    by_cases hy : y = x
    · rw [if_pos hy] at h
      cases h
      simp
    · rw [if_neg hy] at h
      rcases hr : idxOfFirst x ys with _ | j
      · rw [hr] at h; simp at h
      · rw [hr] at h
        simp only [Option.map_some'] at h
        cases h
        have := gm_idxOfFirst_lt hr
        simp only [List.length_cons]
        omega

theorem gm_idxOfFirst_get {x : Int} :
    ∀ {l : List Int} {i : Nat} (h : idxOfFirst x l = some i)
      (hlt : i < l.length), l.get ⟨i, hlt⟩ = x
  | [], i, h, _ => by simp [idxOfFirst] at h
  | y :: ys, i, h, hlt => by
    rw [idxOfFirst] at h
    by_cases hy : y = x
    · rw [if_pos hy] at h
      cases h
      simpa using hy
    · rw [if_neg hy] at h
      rcases hr : idxOfFirst x ys with _ | j
      · rw [hr] at h; simp at h
      · rw [hr] at h
        simp only [Option.map_some'] at h
        cases h
        have := gm_idxOfFirst_get hr (gm_idxOfFirst_lt hr)
        simpa using this

theorem gm_idxOfFirst_isSome {x : Int} :
    ∀ {l : List Int}, x ∈ l → ∃ i, idxOfFirst x l = some i
  | [], h => by simp at h
  | y :: ys, h => by
    rw [idxOfFirst]
    by_cases hy : y = x
    · exact ⟨0, by rw [if_pos hy]⟩
    · have hmem : x ∈ ys := by
        rcases List.mem_cons.mp h with h1 | h1
        · exact absurd h1.symm hy
        · exact h1
      obtain ⟨j, hj⟩ := gm_idxOfFirst_isSome hmem
      exact ⟨j + 1, by rw [if_neg hy, hj]; rfl⟩

theorem gm_idxOfFirst_nodup {x : Int} :
    ∀ {l : List Int}, l.Nodup → ∀ {j : Nat} (h : j < l.length),
      l.get ⟨j, h⟩ = x → idxOfFirst x l = some j
  | [], _, j, h, _ => by simp at h
  | y :: ys, hnd, 0, h, hx => by
    rw [idxOfFirst, if_pos (by simpa using hx)]
  | y :: ys, hnd, j + 1, h, hx => by
    have hys : ys.Nodup := (List.nodup_cons.mp hnd).2
    have hxys : x ∈ ys := by
      have hj : j < ys.length := by simpa using h
      have : ys.get ⟨j, hj⟩ = x := by simpa using hx
      exact this ▸ List.get_mem ys j hj
    have hy : y ≠ x := by
      intro hxy
      exact (List.nodup_cons.mp hnd).1 (hxy ▸ hxys)
    rw [idxOfFirst, if_neg hy,
        gm_idxOfFirst_nodup hys (by simpa using h) (by simpa using hx)]
    rfl

theorem gm_tmod_coe (a b : Nat) : Int.tmod (a : Int) (b : Int) = ((a % b : Nat) : Int) := rfl

theorem gm_tmod_neg_one (b : Nat) :
    Int.tmod (-1) (b : Int) = -(((1 % b : Nat) : Int)) := rfl

/-- The C-style modulo fix-up of `nextSigma` for a `+1` shift. -/
theorem gm_cmod_succ (i len : Nat) (h : i < len) :
    (if Int.tmod ((i : Int) + 1) (len : Int) < 0
     then Int.tmod ((i : Int) + 1) (len : Int) + (len : Int)
     else Int.tmod ((i : Int) + 1) (len : Int)).toNat = (i + 1) % len := by
  have hcast : (i : Int) + 1 = ((i + 1 : Nat) : Int) := by push_cast; ring
  rw [hcast, gm_tmod_coe, if_neg (by omega)]
  omega

/-- The C-style modulo fix-up of `nextSigma` for a `-1` shift. -/
theorem gm_cmod_pred (i len : Nat) (h : i < len) :
    (if Int.tmod ((i : Int) + (-1)) (len : Int) < 0
     then Int.tmod ((i : Int) + (-1)) (len : Int) + (len : Int)
     else Int.tmod ((i : Int) + (-1)) (len : Int)).toNat = (i + len - 1) % len := by
  rcases i with _ | k
  · rcases Nat.lt_or_ge 1 len with h2 | h2
    · have e1 : ((0 : Nat) : Int) + (-1) = (-1 : Int) := by norm_num
      rw [e1, gm_tmod_neg_one, Nat.mod_eq_of_lt h2]
      rw [if_pos (by norm_num)]
      have e2 : -((1 : Nat) : Int) + (len : Int) = ((len - 1 : Nat) : Int) := by omega
      rw [e2]
      simp only [Int.toNat_natCast]
      rw [Nat.zero_add, Nat.mod_eq_of_lt (by omega)]
    · have hl1 : len = 1 := by omega
      subst hl1
      decide
  · have e1 : ((k + 1 : Nat) : Int) + (-1) = ((k : Nat) : Int) := by push_cast; ring
    rw [e1, gm_tmod_coe, if_neg (by omega)]
    simp only [Int.toNat_natCast]
    rw [show k + 1 + len - 1 = k + len from by omega, Nat.add_mod_right]

/-- `nextSigma` rotates one position forward from the first occurrence of
the dart in its start node's list. -/
theorem gm_nextSigma_spec {m : GeoMap} {d : Int} {nl : Nat} {n : GeoMap.Node} {i : Nat}
    (hnl : m.dartStartNodeLabel d = some nl) (hn : m.node nl = some n)
    (hidx : idxOfFirst d n.darts = some i) :
    ∃ h : (i + 1) % n.darts.length < n.darts.length,
      m.nextSigma d = some (n.darts.get ⟨(i + 1) % n.darts.length, h⟩) := by
  have hlt := gm_idxOfFirst_lt hidx
  have hlen : 0 < n.darts.length := by omega
  have hmod : (i + 1) % n.darts.length < n.darts.length := Nat.mod_lt _ hlen
  refine ⟨hmod, ?_⟩
  simp only [GeoMap.nextSigma, GeoMap.nextSigmaTimes, hnl, hn, hidx]
  rw [gm_cmod_succ i n.darts.length hlt, List.getElem?_eq_getElem hmod]
  simp

/-- `prevSigma` rotates one position backward. -/
theorem gm_prevSigma_spec {m : GeoMap} {d : Int} {nl : Nat} {n : GeoMap.Node} {i : Nat}
    (hnl : m.dartStartNodeLabel d = some nl) (hn : m.node nl = some n)
    (hidx : idxOfFirst d n.darts = some i) :
    ∃ h : (i + n.darts.length - 1) % n.darts.length < n.darts.length,
      m.prevSigma d = some (n.darts.get ⟨(i + n.darts.length - 1) % n.darts.length, h⟩) := by
  have hlt := gm_idxOfFirst_lt hidx
  have hlen : 0 < n.darts.length := by omega
  have hmod : (i + n.darts.length - 1) % n.darts.length < n.darts.length := Nat.mod_lt _ hlen
  refine ⟨hmod, ?_⟩
  simp only [GeoMap.prevSigma, GeoMap.nextSigmaTimes, hnl, hn, hidx]
  rw [gm_cmod_pred i n.darts.length hlt, List.getElem?_eq_getElem hmod]
  simp

/-! ## Claim theorems -/

/-- C10: dart equality is decided by the signed label alone — `operator==`
returns true exactly when the signed labels are equal and `operator!=`
exactly when they differ, even across different maps (the map reference
is never consulted) — whereas node equality also compares the owning
map. -/
theorem c10_dart_equality_by_label :
    (∀ a b : DartH, DartH.eqOp a b = true ↔ a.label = b.label) ∧
    (∀ a b : DartH, DartH.neOp a b = true ↔ a.label ≠ b.label) ∧
    (∀ a b : DartH, a.mapId ≠ b.mapId → a.label = b.label → DartH.eqOp a b = true) ∧
    (∀ a b : NodeH, NodeH.eqOp a b = true ↔ a.label = b.label ∧ a.mapId = b.mapId) := by
  refine ⟨?_, ?_, ?_, ?_⟩
  · intro a b; simp [DartH.eqOp]
  · intro a b; simp [DartH.neOp]
  · intro a b _ hl; simp [DartH.eqOp, hl]
  · intro a b; simp [NodeH.eqOp, and_comm]

/-- Witness for C10 at concrete darts on different maps and nodes with
equal labels on different maps. -/
theorem c10_dart_equality_by_label_witness :
    DartH.eqOp ⟨0, 5⟩ ⟨1, 5⟩ = true ∧
    NodeH.eqOp ⟨some 0, 3, (0, 0), []⟩ ⟨some 1, 3, (0, 0), []⟩ = false := by
  constructor
  · exact c10_dart_equality_by_label.2.2.1 ⟨0, 5⟩ ⟨1, 5⟩ (by decide) rfl
  · have h := (c10_dart_equality_by_label.2.2.2
      ⟨some 0, 3, (0, 0), []⟩ ⟨some 1, 3, (0, 0), []⟩)
    rcases hb : NodeH.eqOp ⟨some 0, 3, (0, 0), []⟩ ⟨some 1, 3, (0, 0), []⟩ with _ | _
    · rfl
    · exact absurd ((h.mp hb).2) (by decide)

/-- C3: `removeIsolatedNode` loops over all `removeNode` hooks ignoring
their results and removes the node unconditionally: with hooks
`[return false, return true]` the call succeeds (`.ok`, no `HookVetoed`
error), the vetoing hook's successor is still invoked (trace
`[false, true]`), and the node is uninitialized anyway. -/
theorem c3_removeIsolatedNode_ignores_veto :
    GeoMap.removeIsolatedNode [fun _ => false, fun _ => true] mapIsolated 1 =
      .ok (mapIsolatedRemoved, [false, true]) ∧
    mapIsolated.node 1 ≠ none ∧
    mapIsolatedRemoved.node 1 = none := by
  refine ⟨by with_unfolding_all rfl, by with_unfolding_all decide, by with_unfolding_all rfl⟩

/-- C2: `setPosition` on node 2 of the single-edge map: the positioned
index is re-keyed and the position overwritten, but the update loop then
dereferences edge slot 0 (because it branches on the loop index `i`
instead of the dart in `darts_[i]`), so the call dies without rewriting
any incident edge endpoint — the incident edge's points are unchanged
and its last point no longer equals the node's position (invariant I2 is
broken). -/
theorem c2_setPosition_crash :
    GeoMap.setPosition mapPendant 2 (2, 3) =
      .error ("setPosition: dereferencing null edge", mapPendantSetPosErr) ∧
    (mapPendantSetPosErr.node 2).map GeoMap.Node.position = some (2, 3) ∧
    (mapPendantSetPosErr.edge 1).map GeoMap.Edge.points = some [(0, 0), (1, 0)] ∧
    [((0 : ℚ), (0 : ℚ)), (1, 0)].getLast? ≠ some ((2 : ℚ), (3 : ℚ)) := by
  refine ⟨by with_unfolding_all rfl, by with_unfolding_all rfl,
    by with_unfolding_all rfl, by with_unfolding_all decide⟩

/-- C4: on a pyramid at rest (`top.index = history.length = 0`), adding
a primitive whose replay throws does NOT truncate the history: the catch
block's `cutAbove(topLevel_.index())` trips over its own precondition
(`topLevel_.index() == levelCount()-1` fails because the failed entry was
already appended), a `ContractViolation` replaces the original
exception, and the resulting state still holds the failed entry
(`history.length = 1` while `top.index = 0`). -/
theorem c4_addAndPerformOperation_failed_rollback :
    pyrStart.top.index = pyrStart.history.length ∧
    addAndPerformOperation stepFail cellCountZero pyrStart () =
      .error (.contractViolation "cutAbove(): topLevel_ is not the top level anymore",
              pyrC4bad) ∧
    pyrC4bad.history.length = 1 ∧
    pyrC4bad.top.index = 0 := by
  refine ⟨rfl, by with_unfolding_all rfl, rfl, rfl⟩

/-- C1 counterexample: on the digon, `mergeEdges` applied to dart 1
(start node of degree 2, two distinct incident edges) returns edge 2 —
the edge one `nextSigma` step from the argument — as the survivor, and
uninitializes dart 1's OWN edge: the claim's `survivor = d1.edge` with
`d1 = dart` is false. -/
theorem c1_mergeEdges_keeps_sigma_edge_counterexample :
    GeoMap.degree mapDigon 1 = 2 ∧
    GeoMap.nextSigma mapDigon 1 = some (-2) ∧
    GeoMap.mergeEdges mapDigon 1 = .ok (mapDigonMerged, 2) ∧
    mapDigonMerged.edge (GeoMap.dartEdgeLabel 1) = none ∧
    (mapDigonMerged.edge 2).isSome = true ∧
    (2 : Nat) ≠ GeoMap.dartEdgeLabel 1 := by
  refine ⟨by with_unfolding_all rfl, by with_unfolding_all rfl, by with_unfolding_all rfl,
    by with_unfolding_all rfl, by with_unfolding_all rfl, by decide⟩

/-- C7 counterexample: the reachable map with a single self-loop
(`addNode` then `addEdge 1 1`) has degree sum 2 but
`2·edges + self-loops = 3`: the claimed formula with the self-loop
surcharge does not hold after the public `addEdge` call. -/
theorem c7_degree_sum_selfloop_counterexample :
    GeoMap.addEdge (GeoMap.empty.addNode (0, 0)).1 1 1 loopPts = .ok (mapLoop, 1) ∧
    GeoMap.degreeSum mapLoop = 2 ∧
    2 * GeoMap.edgeCount mapLoop + GeoMap.selfLoopCount mapLoop = 3 ∧
    GeoMap.degreeSum mapLoop ≠
      2 * GeoMap.edgeCount mapLoop + GeoMap.selfLoopCount mapLoop := by
  refine ⟨by with_unfolding_all rfl, by with_unfolding_all decide,
    by with_unfolding_all decide, by with_unfolding_all decide⟩

/-- C9 counterexample: on the reachable two-edge map before
`initContours` (both faces of both edges still uninitialized, so
`isBridge()` holds for every edge), the phi-orbit of dart 1 is
`[1, -2]` with `partialArea` values `[0, 1/2]` summing to `1/2`, yet
`contourArea` — which skips bridges — returns `0`. -/
theorem c9_contourArea_counterexample :
    ((GeoMap.addEdge ((GeoMap.empty.addNode (0, 0)).1.addNode (1, 0)).1
        1 2 [(0, 0), (1, 0)]).bind
      (fun r => GeoMap.addEdge r.1 1 2 [(0, 0), (1/2, 1), (1, 0)])) =
      .ok (mapTwoEdges, 2) ∧
    (mapTwoEdges.edge 1).isSome = true ∧
    GeoMap.phiOrbit mapTwoEdges 1 10 = some [1, -2] ∧
    [1, -2].mapM (GeoMap.dartPartArea mapTwoEdges) = some [0, 1/2] ∧
    [(0 : ℚ), 1/2].sum = 1/2 ∧
    GeoMap.contourArea mapTwoEdges 1 10 = some 0 ∧
    (0 : ℚ) ≠ 1/2 := by
  refine ⟨by with_unfolding_all rfl, by with_unfolding_all rfl, by with_unfolding_all decide,
    by with_unfolding_all decide, by with_unfolding_all decide,
    by with_unfolding_all decide, by with_unfolding_all decide⟩

theorem gm_storeCheckpoint_history {Seg Op : Type} (cc : Seg → Nat)
    (P : CellPyramid Seg Op) (lv : Level Seg) :
    (storeCheckpoint cc P lv).history = P.history := by
  rw [storeCheckpoint]
  split <;> rfl

theorem gm_storeCheckpoint_top {Seg Op : Type} (cc : Seg → Nat)
    (P : CellPyramid Seg Op) (lv : Level Seg) :
    (storeCheckpoint cc P lv).top = P.top := by
  rw [storeCheckpoint]
  split <;> rfl

/-- C8: `beginComposite(); <one successful primitive>; endComposite()`
leaves the primitive itself — not a `Composite` — as the last history
entry, and the top level's index has advanced by one so that
`topLevel.index == history.size()` holds again. -/
theorem c8_composite_flattening {Seg Op : Type} (step : Seg → Op → Except String Seg)
    (cellCount : Seg → Nat) (P : CellPyramid Seg Op) (op : Op) (seg' : Seg)
    (hcomp : P.composing = 0) (hrest : P.top.index = P.history.length)
    (hstep : step P.top.seg op = Except.ok seg') :
    ∃ P2, addAndPerformOperation step cellCount (beginComposite P) op = Except.ok P2 ∧
      (endComposite cellCount P2).history.getLast? = some (HistOp.prim op) ∧
      (endComposite cellCount P2).top.index =
        (endComposite cellCount P2).history.length := by
  have hb : beginComposite P =
      { P with history := P.history ++ [HistOp.comp []], composing := 1 } := by
    simp [beginComposite, hcomp]
  refine ⟨({ P with
              history := P.history ++ [HistOp.comp [HistOp.prim op]]
              top := ⟨P.top.index, P.top.subIndex + 1, seg'⟩
              composing := 1 } : CellPyramid Seg Op), ?_, ?_⟩
  · rw [hb, addAndPerformOperation]
    rw [if_neg (by simp)]
    simp only [List.getLast?_concat, performOp, hstep, Except.map,
      List.dropLast_concat, List.nil_append]
  · rw [endComposite]
    simp only [List.getLast?_concat, List.dropLast_concat]
    norm_num
    constructor
    · split
      · rw [gm_storeCheckpoint_history]
        exact List.getLast?_concat _
      · exact List.getLast?_concat _
    · split
      · rw [gm_storeCheckpoint_history, gm_storeCheckpoint_top]
        simp [hrest]
      · simp [hrest]

/-- Witness for C8 on a fresh concrete pyramid with a succeeding step. -/
theorem c8_composite_flattening_witness :
    ∃ P2, addAndPerformOperation stepOk cellCountZero (beginComposite pyrStart) () =
        Except.ok P2 ∧
      (endComposite cellCountZero P2).history.getLast? = some (HistOp.prim ()) ∧
      (endComposite cellCountZero P2).top.index =
        (endComposite cellCountZero P2).history.length :=
  c8_composite_flattening stepOk cellCountZero pyrStart () 8 rfl rfl rfl

theorem gm_nextPhi_edge {m : GeoMap} {d d' : Int} (h : m.nextPhi d = some d') :
    ∃ e, m.dartEdge d = some e := by
  rw [GeoMap.nextPhi, GeoMap.prevSigma, GeoMap.nextSigmaTimes] at h
  rcases hs : m.dartStartNodeLabel (-d) with _ | nl
  · rw [hs] at h; simp at h
  · rw [GeoMap.dartStartNodeLabel] at hs
    rcases he : m.dartEdge (-d) with _ | e
    · rw [he] at hs; simp at hs
    · rw [GeoMap.dartEdge, Int.natAbs_neg] at he
      exact ⟨e, he⟩

/-- The do/while of `contourArea` computes exactly the sum of the
non-bridge `partialArea` contributions along the collected phi-orbit. -/
theorem gm_contourArea_orbit {m : GeoMap} {start : Int} :
    ∀ (fuel : Nat) (d : Int) (L : List Int),
      m.phiOrbitAux start fuel d = some L →
      m.contourAreaAux start fuel d = some ((L.map m.dartAreaContrib).sum)
  | 0, d, L, h => by simp [GeoMap.phiOrbitAux] at h
  | fuel + 1, d, L, h => by
    rw [GeoMap.phiOrbitAux] at h
    rcases hphi : m.nextPhi d with _ | d'
    · rw [hphi] at h; simp at h
    · simp only [hphi] at h
      obtain ⟨e, he⟩ := gm_nextPhi_edge hphi
      simp only [GeoMap.contourAreaAux, he, hphi]
      by_cases hst : d' = start
      · rw [if_pos hst] at h ⊢
        cases h
        simp [GeoMap.dartAreaContrib, he]
      · rw [if_neg hst] at h ⊢
        rcases hrest : m.phiOrbitAux start fuel d' with _ | L'
        · rw [hrest] at h; simp at h
        · rw [hrest] at h
          simp only [Option.map_some'] at h
          cases h
          rw [gm_contourArea_orbit fuel d' L' hrest]
          simp only [Option.map_some', Option.some.injEq, List.map_cons, List.sum_cons]
          congr 1
          simp [GeoMap.dartAreaContrib, he]

theorem gm_faceArea_anchors {m : GeoMap} {fuel : Nat} :
    ∀ (anchors : List Int) (Ls : List (List Int)),
      anchors.mapM (fun a => m.phiOrbit a fuel) = some Ls →
      anchors.mapM (fun a => m.contourArea a fuel) =
        some (Ls.map (fun l => (l.map m.dartAreaContrib).sum))
  | [], Ls, h => by
    simp only [List.mapM_nil] at h ⊢
    cases h
    rfl
  | a :: as, Ls, h => by
    rw [List.mapM_cons] at h ⊢
    rcases ho : m.phiOrbit a fuel with _ | L
    · rw [ho] at h; simp at h
    · rw [ho] at h
      rcases hr : as.mapM (fun a => m.phiOrbit a fuel) with _ | Ls'
      · rw [hr] at h; simp at h
      · rw [hr] at h
        simp only [Option.bind_some, Option.bind_eq_bind] at h
        have h' : Ls = L :: Ls' := by
          simpa [Option.pure_def] using h.symm
        subst h'
        have ho' : m.phiOrbitAux a fuel a = some L := ho
        have hca : m.contourArea a fuel = some ((L.map m.dartAreaContrib).sum) :=
          gm_contourArea_orbit fuel a L ho'
        rw [hca, gm_faceArea_anchors as Ls' hr]
        simp [Option.pure_def]

/-- C9 (amended): `contourArea(d)` equals the sum of `partialArea()` over
the NON-bridge darts of `d`'s phi-orbit (each bridge dart contributes
zero, which is what `dartAreaContrib` encodes), and `Face::area()` is the
sum of these contour sums over the face's anchors. -/
theorem c9_contourArea_orbit_sum (m : GeoMap) (fuel : Nat) :
    (∀ (d : Int) (L : List Int), m.phiOrbit d fuel = some L →
      m.contourArea d fuel = some ((L.map m.dartAreaContrib).sum)) ∧
    (∀ (f : GeoMap.Face) (Ls : List (List Int)),
      f.anchors.mapM (fun a => m.phiOrbit a fuel) = some Ls →
      m.faceArea f fuel =
        some ((Ls.map (fun l => (l.map m.dartAreaContrib).sum)).sum)) := by
  constructor
  · intro d L h
    exact gm_contourArea_orbit fuel d L h
  · intro f Ls h
    rw [GeoMap.faceArea, gm_faceArea_anchors f.anchors Ls h]
    rfl

/-- Witness for C9 on the triangle: dart 1's phi-orbit is `[1, 2, 3]` and
the interior face's area is the corresponding contour sum. -/
theorem c9_contourArea_orbit_sum_witness :
    GeoMap.contourArea mapTri 1 20 =
      some (([1, 2, 3].map (GeoMap.dartAreaContrib mapTri)).sum) ∧
    GeoMap.faceArea mapTri ⟨1, [1]⟩ 20 =
      some (([[1, 2, 3]].map
        (fun l => (l.map (GeoMap.dartAreaContrib mapTri)).sum)).sum) := by
  have h := c9_contourArea_orbit_sum mapTri 20
  exact ⟨h.1 1 [1, 2, 3] (by with_unfolding_all decide),
    h.2 ⟨1, [1]⟩ [[1, 2, 3]] (by with_unfolding_all decide)⟩

/-! ## Helper lemmas: accessors through state updates -/

theorem gm_setFace_edges (m : GeoMap) (l : Nat) (v : Option GeoMap.Face) :
    (m.setFace l v).edges = m.edges := rfl

theorem gm_setFace_nodes (m : GeoMap) (l : Nat) (v : Option GeoMap.Face) :
    (m.setFace l v).nodes = m.nodes := rfl

theorem gm_setEdge_nodes (m : GeoMap) (l : Nat) (v : Option GeoMap.Edge) :
    (m.setEdge l v).nodes = m.nodes := rfl

theorem gm_setEdge_faces (m : GeoMap) (l : Nat) (v : Option GeoMap.Edge) :
    (m.setEdge l v).faces = m.faces := rfl

theorem gm_setNode_edges (m : GeoMap) (l : Nat) (v : Option GeoMap.Node) :
    (m.setNode l v).edges = m.edges := rfl

theorem gm_setNode_faces (m : GeoMap) (l : Nat) (v : Option GeoMap.Node) :
    (m.setNode l v).faces = m.faces := rfl

theorem gm_modifyNode_edges (m : GeoMap) (l : Nat) (f : GeoMap.Node → GeoMap.Node) :
    (m.modifyNode l f).edges = m.edges := by
  rw [GeoMap.modifyNode]; split <;> rfl

theorem gm_modifyNode_faces (m : GeoMap) (l : Nat) (f : GeoMap.Node → GeoMap.Node) :
    (m.modifyNode l f).faces = m.faces := by
  rw [GeoMap.modifyNode]; split <;> rfl

theorem gm_modifyFace_edges (m : GeoMap) (l : Nat) (f : GeoMap.Face → GeoMap.Face) :
    (m.modifyFace l f).edges = m.edges := by
  rw [GeoMap.modifyFace]; split <;> rfl

theorem gm_modifyFace_nodes (m : GeoMap) (l : Nat) (f : GeoMap.Face → GeoMap.Face) :
    (m.modifyFace l f).nodes = m.nodes := by
  rw [GeoMap.modifyFace]; split <;> rfl

theorem gm_modifyEdge_nodes (m : GeoMap) (l : Nat) (f : GeoMap.Edge → GeoMap.Edge) :
    (m.modifyEdge l f).nodes = m.nodes := by
  rw [GeoMap.modifyEdge]; split <;> rfl

theorem gm_modifyEdge_faces (m : GeoMap) (l : Nat) (f : GeoMap.Edge → GeoMap.Edge) :
    (m.modifyEdge l f).faces = m.faces := by
  rw [GeoMap.modifyEdge]; split <;> rfl

theorem gm_uninitializeNodeObj_edges (m : GeoMap) (n : GeoMap.Node) :
    (m.uninitializeNodeObj n).edges = m.edges := rfl

theorem gm_uninitializeNodeObj_faces (m : GeoMap) (n : GeoMap.Node) :
    (m.uninitializeNodeObj n).faces = m.faces := rfl

/-- Edge lookup after a same-slot write (the slot must exist). -/
theorem gm_edge_setEdge_self {m : GeoMap} {l : Nat} {v : Option GeoMap.Edge}
    (h : l < m.edges.length) : (m.setEdge l v).edge l = v :=
  gm_getD_set_self h

theorem gm_edge_setEdge_ne {m : GeoMap} {l l' : Nat} {v : Option GeoMap.Edge}
    (h : l ≠ l') : (m.setEdge l v).edge l' = m.edge l' :=
  gm_getD_set_ne h

theorem gm_node_setNode_self {m : GeoMap} {l : Nat} {v : Option GeoMap.Node}
    (h : l < m.nodes.length) : (m.setNode l v).node l = v :=
  gm_getD_set_self h

theorem gm_node_setNode_ne {m : GeoMap} {l l' : Nat} {v : Option GeoMap.Node}
    (h : l ≠ l') : (m.setNode l v).node l' = m.node l' :=
  gm_getD_set_ne h

theorem gm_face_setFace_self {m : GeoMap} {l : Nat} {v : Option GeoMap.Face}
    (h : l < m.faces.length) : (m.setFace l v).face l = v :=
  gm_getD_set_self h

theorem gm_face_setFace_ne {m : GeoMap} {l l' : Nat} {v : Option GeoMap.Face}
    (h : l ≠ l') : (m.setFace l v).face l' = m.face l' :=
  gm_getD_set_ne h

/-- `edge`/`node`/`face` read only the respective arena. -/
theorem gm_edge_congr {m m' : GeoMap} (h : m'.edges = m.edges) (l : Nat) :
    m'.edge l = m.edge l := by
  rw [GeoMap.edge, GeoMap.edge, h]

theorem gm_node_congr {m m' : GeoMap} (h : m'.nodes = m.nodes) (l : Nat) :
    m'.node l = m.node l := by
  rw [GeoMap.node, GeoMap.node, h]

theorem gm_face_congr {m m' : GeoMap} (h : m'.faces = m.faces) (l : Nat) :
    m'.face l = m.face l := by
  rw [GeoMap.face, GeoMap.face, h]

theorem gm_dartEdge_congr {m m' : GeoMap} (h : m'.edges = m.edges) (d : Int) :
    m'.dartEdge d = m.dartEdge d := by
  rw [GeoMap.dartEdge, GeoMap.dartEdge]
  exact gm_edge_congr h _

theorem gm_dartStartNodeLabel_congr {m m' : GeoMap} (h : m'.edges = m.edges) (d : Int) :
    m'.dartStartNodeLabel d = m.dartStartNodeLabel d := by
  rw [GeoMap.dartStartNodeLabel, GeoMap.dartStartNodeLabel, gm_dartEdge_congr h]

theorem gm_dartEndNodeLabel_congr {m m' : GeoMap} (h : m'.edges = m.edges) (d : Int) :
    m'.dartEndNodeLabel d = m.dartEndNodeLabel d := by
  rw [GeoMap.dartEndNodeLabel, GeoMap.dartEndNodeLabel, gm_dartEdge_congr h]

theorem gm_modifyNode_length (m : GeoMap) (l : Nat) (f : GeoMap.Node → GeoMap.Node) :
    (m.modifyNode l f).nodes.length = m.nodes.length := by
  rw [GeoMap.modifyNode]
  split
  · rfl
  · simp [GeoMap.setNode]

theorem gm_uninitializeNodeObj_node_self {m : GeoMap} {n : GeoMap.Node}
    (h : n.label < m.nodes.length) :
    (m.uninitializeNodeObj n).node n.label = none := by
  rw [GeoMap.uninitializeNodeObj]
  exact gm_getD_set_self h

theorem gm_uninitializeNodeObj_node_ne {m : GeoMap} {n : GeoMap.Node} {l : Nat}
    (h : n.label ≠ l) :
    (m.uninitializeNodeObj n).node l = m.node l := by
  rw [GeoMap.uninitializeNodeObj]
  exact gm_getD_set_ne h

/-- Inverting a successful `nextSigma`: the start node exists and the
result is one of its darts. -/
theorem gm_nextSigma_inv {m : GeoMap} {d d1 : Int} (h : m.nextSigma d = some d1) :
    ∃ nl n, m.dartStartNodeLabel d = some nl ∧ m.node nl = some n ∧ d1 ∈ n.darts := by
  rw [GeoMap.nextSigma, GeoMap.nextSigmaTimes] at h
  rcases h1 : m.dartStartNodeLabel d with _ | nl
  · rw [h1] at h; simp at h
  · simp only [h1] at h
    rcases h2 : m.node nl with _ | n
    · rw [h2] at h; simp at h
    · simp only [h2] at h
      rcases h3 : idxOfFirst d n.darts with _ | i
      · rw [h3] at h; simp at h
      · simp only [h3] at h
        refine ⟨nl, n, rfl, h2, ?_⟩
        rcases h4 : n.darts[(if (Int.tmod ((i : Int) + 1) (n.darts.length : Int)) < 0
            then Int.tmod ((i : Int) + 1) (n.darts.length : Int) + (n.darts.length : Int)
            else Int.tmod ((i : Int) + 1) (n.darts.length : Int)).toNat]? with _ | x
        · rw [h4] at h; simp at h
        · rw [h4] at h
          cases h
          obtain ⟨hlt, heq⟩ := List.getElem?_eq_some.mp h4
          exact heq ▸ List.getElem_mem hlt

/-- A successful anchor fix-up only rewrites the face table. -/
theorem gm_adjustFaceAnchors_state {m m1 : GeoMap} {fl mel : Nat}
    (h : m.adjustFaceAnchors fl mel = Except.ok m1) :
    m1.edges = m.edges ∧ m1.nodes = m.nodes ∧
    m1.faces.length = m.faces.length ∧ m1.nodeMap = m.nodeMap := by
  rw [GeoMap.adjustFaceAnchors] at h
  simp only [gm_exceptBind_ok, gm_reqSt_ok, gm_pure_ok] at h
  obtain ⟨f, hf, a', ha', hm1⟩ := h
  subst hm1
  refine ⟨rfl, rfl, ?_, rfl⟩
  simp [GeoMap.setFace]

set_option maxHeartbeats 1000000

/-- C1 (amended): whenever `mergeEdges(d)` succeeds, the surviving edge —
returned, still live, and carrying the concatenation of both polygons
(each part possibly reversed) — is the edge one `nextSigma` step from
`d`, while `d`'s own edge and the common start node are uninitialized. -/
theorem c1_mergeEdges_survivor (m : GeoMap) (dart : Int) (m' : GeoMap) (s : Nat)
    (hwf : m.wellFormedB = true) (hok : m.mergeEdges dart = Except.ok (m', s)) :
    ∃ d1 nl, m.nextSigma dart = some d1 ∧ s = d1.natAbs ∧ d1.natAbs ≠ dart.natAbs ∧
      m.dartStartNodeLabel dart = some nl ∧ m'.node nl = none ∧
      m'.edge dart.natAbs = none ∧
      ∃ eS eM e', m.edge d1.natAbs = some eS ∧ m.edge dart.natAbs = some eM ∧
        m'.edge d1.natAbs = some e' ∧
        e'.points.length = eS.points.length + eM.points.length ∧
        (e'.points = eS.points ++ eM.points ∨ e'.points = eS.points ++ eM.points.reverse ∨
         e'.points = eM.points ++ eS.points ∨ e'.points = eM.points.reverse ++ eS.points) := by
  rw [GeoMap.mergeEdges] at hok
  simp only [gm_exceptBind_ok, gm_reqSt_ok, gm_checkSt_ok, gm_pure_ok, exists_const,
    Prod.mk.injEq] at hok
  obtain ⟨d1, hd1, hne, d2, hd2, rfl, d1l, hd1l, d1r, hd1r, d2l, hd2l, d2r, hd2r,
    heq1, heq2, f6, hf6, f7, hf7, m1, hm1, m2, hm2, mnl, hmnl, mN, hmN, eS, heS,
    eM, heM, cenl, hcenl, cenN, hcenN, cidx, hcidx, hm', hs⟩ := hok
  subst hs
  subst hm'
  obtain ⟨nl, n, hsnl, hn, hd1mem⟩ := gm_nextSigma_inv hd1
  obtain ⟨h8e, h8n, h8fl, h8nm⟩ := gm_adjustFaceAnchors_state hm1
  obtain ⟨h9e, h9n, h9fl, h9nm⟩ := gm_adjustFaceAnchors_state hm2
  have hm2e : m2.edges = m.edges := h9e.trans h8e
  have hm2n : m2.nodes = m.nodes := h9n.trans h8n
  -- identify the merged node
  rw [gm_dartStartNodeLabel_congr hm2e, gm_wf_dart_startNode hwf hn hd1mem] at hmnl
  have hmnl2 : mnl = nl := by cases hmnl; rfl
  rw [hmnl2, gm_node_congr hm2n] at hmN
  have hlabmN : mN.label = nl := gm_nodeOk_label (gm_wf_node hwf hmN)
  -- identify the two edges
  rw [gm_dartEdge_congr hm2e] at heS heM
  rw [GeoMap.dartEdge] at heS heM
  have heSlab : eS.label = d1.natAbs := gm_edgeOk_label (gm_wf_edge hwf heS)
  have heMlab : eM.label = d2.natAbs := gm_edgeOk_label (gm_wf_edge hwf heM)
  have hnllt : nl < m.nodes.length := gm_getD_some_lt hn
  have hmelt : d2.natAbs < m.edges.length := gm_getD_some_lt heM
  have hselt : d1.natAbs < m.edges.length := gm_getD_some_lt heS
  have hneL : eM.label ≠ d1.natAbs := by
    rw [heMlab]
    exact fun h => hne h.symm
  have hgetNS : ∀ (NS : GeoMap.Edge) (f : GeoMap.Node → GeoMap.Node),
      ((((m2.setEdge d1.natAbs (some NS)).modifyNode cenl f).uninitializeNodeObj
        mN).uninitializeEdge eM.label).edge d1.natAbs = some NS := by
    intro NS f
    rw [GeoMap.uninitializeEdge, gm_edge_setEdge_ne hneL,
      gm_edge_congr (gm_uninitializeNodeObj_edges _ _),
      gm_edge_congr (gm_modifyNode_edges _ _ _)]
    apply gm_edge_setEdge_self
    show d1.natAbs < m2.edges.length
    rw [hm2e]
    exact hselt
  refine ⟨d1, nl, hd1, heSlab ▸ rfl, hne, hsnl, ?_, ?_, ?_⟩
  · rw [GeoMap.uninitializeEdge, gm_node_congr (gm_setEdge_nodes _ _ _), ← hlabmN]
    apply gm_uninitializeNodeObj_node_self
    rw [hlabmN, gm_modifyNode_length]
    show nl < m2.nodes.length
    rw [hm2n]
    exact hnllt
  · rw [GeoMap.uninitializeEdge, heMlab]
    apply gm_edge_setEdge_self
    rw [gm_uninitializeNodeObj_edges, gm_modifyNode_edges]
    simp only [GeoMap.setEdge, List.length_set]
    rw [hm2e]
    exact hmelt
  · refine ⟨eS, eM, _, heS, heM, hgetNS _ _, ?_, ?_⟩
    · by_cases hc1 : eS.startNodeLabel ≠ mN.label <;>
        by_cases hc2 : eM.startNodeLabel ≠ mN.label <;>
        simp [hc1, hc2, Nat.add_comm]
    · by_cases hc1 : eS.startNodeLabel ≠ mN.label <;>
        by_cases hc2 : eM.startNodeLabel ≠ mN.label <;>
        simp [hc1, hc2, List.reverse_append]

/-- Witness for C1 on the digon: the survivor is edge 2 = |σ(1)|. -/
theorem c1_mergeEdges_survivor_witness :
    ∃ d1 nl, GeoMap.nextSigma mapDigon 1 = some d1 ∧ (2 : Nat) = d1.natAbs ∧
      d1.natAbs ≠ (1 : Int).natAbs ∧
      GeoMap.dartStartNodeLabel mapDigon 1 = some nl ∧ mapDigonMerged.node nl = none ∧
      mapDigonMerged.edge (1 : Int).natAbs = none ∧
      ∃ eS eM e', mapDigon.edge d1.natAbs = some eS ∧
        mapDigon.edge (1 : Int).natAbs = some eM ∧
        mapDigonMerged.edge d1.natAbs = some e' ∧
        e'.points.length = eS.points.length + eM.points.length ∧
        (e'.points = eS.points ++ eM.points ∨ e'.points = eS.points ++ eM.points.reverse ∨
         e'.points = eM.points ++ eS.points ∨ e'.points = eM.points.reverse ++ eS.points) :=
  c1_mergeEdges_survivor mapDigon 1 mapDigonMerged 2 (by with_unfolding_all decide)
    (by with_unfolding_all rfl)

/-- For a proper (nonzero) dart, the left face of the reversed dart is
the right face of the dart. -/
theorem gm_dartLeft_neg {m : GeoMap} {d : Int} (hd : d ≠ 0) :
    m.dartLeftFaceLabel (-d) = m.dartRightFaceLabel d := by
  rw [GeoMap.dartLeftFaceLabel, GeoMap.dartRightFaceLabel, GeoMap.dartEdge,
    GeoMap.dartEdge, Int.natAbs_neg]
  rcases lt_trichotomy d 0 with hlt | heq | hgt
  · have h1 : (0 : Int) < -d := by omega
    simp [hlt.not_lt, h1, hlt]
  · exact absurd heq hd
  · have h1 : ¬ ((0 : Int) < -d) := by omega
    simp [hgt, h1]

theorem gm_dartRight_neg {m : GeoMap} {d : Int} (hd : d ≠ 0) :
    m.dartRightFaceLabel (-d) = m.dartLeftFaceLabel d := by
  rw [GeoMap.dartRightFaceLabel, GeoMap.dartLeftFaceLabel, GeoMap.dartEdge,
    GeoMap.dartEdge, Int.natAbs_neg]
  rcases lt_trichotomy d 0 with hlt | heq | hgt
  · have h1 : (0 : Int) < -d := by omega
    simp [hlt.not_lt, h1, hlt]
  · exact absurd heq hd
  · have h1 : ¬ ((0 : Int) < -d) := by omega
    simp [hgt, h1]

/-- The contour re-assignment loop rewrites only edge face labels. -/
theorem gm_repaintOrbit_state {sl : Nat} :
    ∀ {fuel : Nat} {mm mm' : GeoMap} {d : Int},
      GeoMap.repaintOrbit sl fuel mm d = Except.ok mm' →
      mm'.nodes = mm.nodes ∧ mm'.faces = mm.faces ∧
      mm'.edges.length = mm.edges.length ∧ mm'.nodeMap = mm.nodeMap
  | 0, mm, mm', d, h => by simp [GeoMap.repaintOrbit] at h
  | fuel + 1, mm, mm', d, h => by
    rw [GeoMap.repaintOrbit] at h
    simp only [gm_exceptBind_ok, gm_reqSt_ok, gm_pure_ok] at h
    obtain ⟨d', hd', l, hl, h⟩ := h
    by_cases hsl : l = sl
    · rw [if_pos hsl] at h
      simp only [gm_pure_ok] at h
      cases h
      exact ⟨rfl, rfl, rfl, rfl⟩
    · rw [if_neg hsl] at h
      obtain ⟨h1, h2, h3, h4⟩ := gm_repaintOrbit_state h
      rw [GeoMap.setDartLeftFaceLabel] at h1 h2 h3 h4
      refine ⟨h1.trans (gm_modifyEdge_nodes _ _ _), h2.trans (gm_modifyEdge_faces _ _ _),
        h3.trans ?_, h4.trans ?_⟩
      · rw [GeoMap.modifyEdge]
        split
        · rfl
        · simp [GeoMap.setEdge]
      · rw [GeoMap.modifyEdge]
        split
        · rfl
        · rfl

theorem gm_repaintAnchors_state {sl : Nat} {fuel : Nat} :
    ∀ {anchors : List Int} {mm mm' : GeoMap},
      GeoMap.repaintAnchors sl fuel mm anchors = Except.ok mm' →
      mm'.nodes = mm.nodes ∧ mm'.faces = mm.faces ∧
      mm'.edges.length = mm.edges.length ∧ mm'.nodeMap = mm.nodeMap
  | [], mm, mm', h => by
    rw [GeoMap.repaintAnchors] at h
    cases h
    exact ⟨rfl, rfl, rfl, rfl⟩
  | a :: rest, mm, mm', h => by
    rw [GeoMap.repaintAnchors] at h
    simp only [gm_exceptBind_ok] at h
    obtain ⟨mmi, hmi, h⟩ := h
    obtain ⟨i1, i2, i3, i4⟩ := gm_repaintOrbit_state hmi
    obtain ⟨j1, j2, j3, j4⟩ := gm_repaintAnchors_state h
    exact ⟨j1.trans i1, j2.trans i2, j3.trans i3, j4.trans i4⟩

theorem gm_getD_set_none {α : Type} (l : List (Option α)) (i : Nat) :
    (l.set i none).getD i none = none := by
  by_cases h : i < l.length
  · exact gm_getD_set_self h
  · exact List.getD_eq_default _ _ (by simpa using not_lt.mp h)

theorem gm_face_uninitializeFace_self (m : GeoMap) (l : Nat) :
    (m.uninitializeFace l).face l = none := by
  rw [GeoMap.uninitializeFace, GeoMap.setFace, GeoMap.face]
  exact gm_getD_set_none _ _

theorem gm_edge_uninitializeEdge_self (m : GeoMap) (l : Nat) :
    (m.uninitializeEdge l).edge l = none := by
  rw [GeoMap.uninitializeEdge, GeoMap.setEdge, GeoMap.edge]
  exact gm_getD_set_none _ _

theorem gm_uninitializeFace_edges (m : GeoMap) (l : Nat) :
    (m.uninitializeFace l).edges = m.edges := rfl

theorem gm_face_uninitializeFace_ne {m : GeoMap} {l l' : Nat} (h : l ≠ l') :
    (m.uninitializeFace l).face l' = m.face l' := gm_face_setFace_ne h

theorem gm_face_uninitializeEdge (m : GeoMap) (l l' : Nat) :
    (m.uninitializeEdge l).face l' = m.face l' := rfl

theorem gm_face_modifyNode (m : GeoMap) (l : Nat) (f : GeoMap.Node → GeoMap.Node) (l' : Nat) :
    (m.modifyNode l f).face l' = m.face l' :=
  gm_face_congr (gm_modifyNode_faces _ _ _) _

theorem gm_face_uninitializeNodeObj (m : GeoMap) (n : GeoMap.Node) (l' : Nat) :
    (m.uninitializeNodeObj n).face l' = m.face l' := rfl

theorem gm_dartEdge_neg (m : GeoMap) (d : Int) :
    m.dartEdge (-d) = m.dartEdge d := by
  rw [GeoMap.dartEdge, GeoMap.dartEdge, Int.natAbs_neg]

theorem gm_face_condNodeRemove (mm : GeoMap) (c c' : Prop) [Decidable c] [Decidable c']
    (a b : GeoMap.Node) (l : Nat) :
    (if c then (if c' then mm.uninitializeNodeObj b else mm).uninitializeNodeObj a
     else (if c' then mm.uninitializeNodeObj b else mm)).face l = mm.face l := by
  split <;> split <;> rfl

set_option maxHeartbeats 2000000 in
/-- C5: whenever `mergeFaces(d)` succeeds on a proper dart of a
well-formed map, the surviving face is the one the operation returns: it
is the left or the right face of `d`; if either of the two faces is the
infinite face 0 then face 0 survives; otherwise, when the areas differ,
the larger-area face survives.  The other face and `d`'s edge are
uninitialized, and the survivor's slot stays live. -/
theorem c5_mergeFaces_survivor (m : GeoMap) (d : Int) (fuel : Nat) (m' : GeoMap) (s : Nat)
    (hd : d ≠ 0) (hwf : m.wellFormedB = true)
    (hok : m.mergeFaces d fuel = Except.ok (m', s)) :
    ∃ lfl rfl' lf rf la ra,
      m.dartLeftFaceLabel d = some lfl ∧ m.dartRightFaceLabel d = some rfl' ∧
      m.face lfl = some lf ∧ m.face rfl' = some rf ∧
      m.faceArea lf fuel = some la ∧ m.faceArea rf fuel = some ra ∧
      lfl ≠ rfl' ∧
      (s = lfl ∨ s = rfl') ∧
      ((lfl = 0 ∨ rfl' = 0) → s = 0) ∧
      (lfl ≠ 0 → rfl' ≠ 0 → la ≠ ra →
        ((la < ra ∧ s = rfl') ∨ (ra < la ∧ s = lfl))) ∧
      m'.face (if s = lfl then rfl' else lfl) = none ∧
      m'.edge d.natAbs = none ∧
      (m'.face s).isSome = true := by
  rw [GeoMap.mergeFaces] at hok
  simp only [gm_exceptBind_ok, gm_reqSt_ok, gm_checkSt_ok, gm_pure_ok, exists_const,
    Prod.mk.injEq] at hok
  obtain ⟨lfl, hLfl, lf, hLf, rfl', hRfl, rf, hRf, la, hLa, ra, hRa, rdr, hRdr,
    me, hMe, sl, hSl, surv, hSurv, ml, hMl, mf, hMf, n1l, hN1l, n1, hN1,
    n2l, hN2l, n2, hN2, hbne, c1, hC1, c2, hC2, m1, hM1, ch, hCh, sa, hSa,
    hMfin, hSfin⟩ := hok
  have hslab : surv.label = sl := gm_wf_face hwf hSurv
  have hmlab : mf.label = ml := gm_wf_face hwf hMf
  have hs_eq : s = sl := by rw [← hSfin, hslab]
  have hne' : sl ≠ ml := by rw [← hslab, ← hmlab]; exact hbne
  have hrdc : (if rdr = 0 then -(if la < ra then -d else d) else (if la < ra then -d else d)) = d ∨
      (if rdr = 0 then -(if la < ra then -d else d) else (if la < ra then -d else d)) = -d := by
    by_cases h1 : rdr = 0 <;> by_cases h2 : la < ra <;> simp [h1, h2]
  have hid : (sl = lfl ∧ ml = rfl') ∨ (sl = rfl' ∧ ml = lfl) := by
    rcases hrdc with h | h
    · rw [h] at hSl hMl
      have e1 := Option.some.inj (hLfl.symm.trans hSl)
      have e2 := Option.some.inj (hRfl.symm.trans hMl)
      omega
    · rw [h, gm_dartLeft_neg hd] at hSl
      rw [h, gm_dartRight_neg hd] at hMl
      have e1 := Option.some.inj (hRfl.symm.trans hSl)
      have e2 := Option.some.inj (hLfl.symm.trans hMl)
      omega
  have hzero : (lfl = 0 ∨ rfl' = 0) → s = 0 := by
    intro hdisj
    rw [hs_eq]
    by_cases hlt : la < ra
    · rw [if_pos hlt, gm_dartRight_neg hd] at hRdr
      have hrl : lfl = rdr := Option.some.inj (hLfl.symm.trans hRdr)
      by_cases hz : rdr = 0
      · rw [if_pos hz, if_pos hlt, neg_neg] at hSl
        have e1 : lfl = sl := Option.some.inj (hLfl.symm.trans hSl)
        omega
      · rw [if_neg hz, if_pos hlt, gm_dartLeft_neg hd] at hSl
        have e1 : rfl' = sl := Option.some.inj (hRfl.symm.trans hSl)
        rcases hdisj with h0 | h0 <;> omega
    · rw [if_neg hlt] at hRdr
      have hrr : rfl' = rdr := Option.some.inj (hRfl.symm.trans hRdr)
      by_cases hz : rdr = 0
      · rw [if_pos hz, if_neg hlt, gm_dartLeft_neg hd] at hSl
        have e1 : rfl' = sl := Option.some.inj (hRfl.symm.trans hSl)
        omega
      · rw [if_neg hz, if_neg hlt] at hSl
        have e1 : lfl = sl := Option.some.inj (hLfl.symm.trans hSl)
        rcases hdisj with h0 | h0 <;> omega
  have hlarger : lfl ≠ 0 → rfl' ≠ 0 → la ≠ ra →
      ((la < ra ∧ s = rfl') ∨ (ra < la ∧ s = lfl)) := by
    intro h1 h2 h3
    by_cases hlt : la < ra
    · rw [if_pos hlt, gm_dartRight_neg hd] at hRdr
      have hrl : lfl = rdr := Option.some.inj (hLfl.symm.trans hRdr)
      have hz : ¬ rdr = 0 := by omega
      rw [if_neg hz, if_pos hlt, gm_dartLeft_neg hd] at hSl
      exact Or.inl ⟨hlt, hs_eq.trans (Option.some.inj (hRfl.symm.trans hSl)).symm⟩
    · rw [if_neg hlt] at hRdr
      have hrr : rfl' = rdr := Option.some.inj (hRfl.symm.trans hRdr)
      have hz : ¬ rdr = 0 := by omega
      rw [if_neg hz, if_neg hlt] at hSl
      exact Or.inr ⟨(not_lt.mp hlt).lt_of_ne (Ne.symm h3),
        hs_eq.trans (Option.some.inj (hLfl.symm.trans hSl)).symm⟩
  have hm'_merged : m'.face ml = none := by
    rw [← hMfin, ← hmlab]
    exact gm_face_uninitializeFace_self _ _
  have hme_lab : me.label = d.natAbs := by
    rcases hrdc with h | h
    · rw [h, GeoMap.dartEdge] at hMe
      exact gm_edgeOk_label (gm_wf_edge hwf hMe)
    · rw [h, gm_dartEdge_neg, GeoMap.dartEdge] at hMe
      exact gm_edgeOk_label (gm_wf_edge hwf hMe)
  have hm'_edge : m'.edge d.natAbs = none := by
    rw [← hMfin, ← hme_lab]
    exact (gm_edge_congr (gm_uninitializeFace_edges _ _) _).trans
      (gm_edge_uninitializeEdge_self _ _)
  have hlen : sl < m.faces.length := gm_getD_some_lt hSurv
  have hm1f : m1.faces = m.faces := (gm_repaintAnchors_state hM1).2.1
  have hlen2 : ∀ v : Option GeoMap.Face, sl < (m1.setFace sl v).faces.length := by
    intro v
    simpa [GeoMap.setFace, hm1f] using hlen
  have hm'_surv : (m'.face s).isSome = true := by
    rw [hs_eq, ← hMfin,
      gm_face_uninitializeFace_ne (show mf.label ≠ sl by omega),
      gm_face_uninitializeEdge, gm_face_condNodeRemove, gm_face_modifyNode,
      gm_face_modifyNode, gm_face_setFace_self (hlen2 _)]
    rfl
  refine ⟨lfl, rfl', lf, rf, la, ra, hLfl, hRfl, hLf, hRf, hLa, hRa, ?_, ?_,
    hzero, hlarger, ?_, hm'_edge, hm'_surv⟩
  · rcases hid with ⟨h1, h2⟩ | ⟨h1, h2⟩ <;> omega
  · rcases hid with ⟨h1, _⟩ | ⟨h1, _⟩
    · exact Or.inl (hs_eq.trans h1)
    · exact Or.inr (hs_eq.trans h1)
  · rcases hid with ⟨h1, h2⟩ | ⟨h1, h2⟩
    · rw [if_pos (hs_eq.trans h1), ← h2]
      exact hm'_merged
    · rw [if_neg (show ¬ s = lfl by omega), ← h2]
      exact hm'_merged


/-- Witness for C5 on the triangle: `mergeFaces(1)` merges face 1 into
the infinite face 0 and returns 0. -/
theorem c5_mergeFaces_survivor_witness :
    ∃ lfl rfl' lf rf la ra,
      mapTri.dartLeftFaceLabel 1 = some lfl ∧ mapTri.dartRightFaceLabel 1 = some rfl' ∧
      mapTri.face lfl = some lf ∧ mapTri.face rfl' = some rf ∧
      mapTri.faceArea lf 20 = some la ∧ mapTri.faceArea rf 20 = some ra ∧
      lfl ≠ rfl' ∧
      ((0 : Nat) = lfl ∨ (0 : Nat) = rfl') ∧
      ((lfl = 0 ∨ rfl' = 0) → (0 : Nat) = 0) ∧
      (lfl ≠ 0 → rfl' ≠ 0 → la ≠ ra →
        ((la < ra ∧ (0 : Nat) = rfl') ∨ (ra < la ∧ (0 : Nat) = lfl))) ∧
      mapTriMerged.face (if (0 : Nat) = lfl then rfl' else lfl) = none ∧
      mapTriMerged.edge (1 : Int).natAbs = none ∧
      (mapTriMerged.face 0).isSome = true :=
  c5_mergeFaces_survivor mapTri 1 20 mapTriMerged 0 (by decide)
    (by with_unfolding_all decide) (by with_unfolding_all rfl)

theorem gm_reqSt_bind_some {α β : Type} {st : GeoMap} {o : Option α} {msg : String}
    {a : α} (h : o = some a) (k : α → GRes β) :
    (reqSt st o msg >>= k) = k a := by
  rw [h]; rfl

theorem gm_reqSt_bind_none {α β : Type} {st : GeoMap} {o : Option α} {msg : String}
    (h : o = none) (k : α → GRes β) :
    (reqSt st o msg >>= k) = Except.error (msg, st) := by
  rw [h]; rfl

theorem gm_checkSt_bind_pos {β : Type} {st : GeoMap} {b : Prop} [Decidable b] {msg : String}
    (h : b) (k : Unit → GRes β) :
    (checkSt st b msg >>= k) = k () := by
  rw [checkSt, if_pos h]; rfl

theorem gm_checkSt_bind_neg {β : Type} {st : GeoMap} {b : Prop} [Decidable b] {msg : String}
    (h : ¬ b) (k : Unit → GRes β) :
    (checkSt st b msg >>= k) = Except.error (msg, st) := by
  rw [checkSt, if_neg h]; rfl

theorem gm_removeBridge_nonbridge_error (m : GeoMap) (d : Int) (hwf : m.wellFormedB = true)
    (e : GeoMap.Edge) (he : m.dartEdge d = some e)
    (hnb : e.leftFaceLabel ≠ e.rightFaceLabel) (fuel : Nat) :
    ∃ msg, m.removeBridge d fuel = Except.error (msg, m) := by
  have hl : m.dartLeftFaceLabel d =
      some (if d > 0 then e.leftFaceLabel else e.rightFaceLabel) := by
    rw [GeoMap.dartLeftFaceLabel, he]; rfl
  have hr : m.dartRightFaceLabel d =
      some (if d > 0 then e.rightFaceLabel else e.leftFaceLabel) := by
    rw [GeoMap.dartRightFaceLabel, he]; rfl
  rw [GeoMap.removeBridge, gm_reqSt_bind_some he, gm_reqSt_bind_some hl]
  rcases hfl : m.face (if d > 0 then e.leftFaceLabel else e.rightFaceLabel) with _ | face
  · rw [gm_reqSt_bind_none rfl]; exact ⟨_, rfl⟩
  · rw [gm_reqSt_bind_some rfl, gm_reqSt_bind_some hr]
    rcases hfr : m.face (if d > 0 then e.rightFaceLabel else e.leftFaceLabel) with _ | rface
    · rw [gm_reqSt_bind_none rfl]; exact ⟨_, rfl⟩
    · rw [gm_reqSt_bind_some rfl]
      have h1 := gm_wf_face hwf hfl
      have h2 := gm_wf_face hwf hfr
      have hne : ¬ (face.label = rface.label) := by
        rw [h1, h2]
        split <;> [exact hnb; exact Ne.symm hnb]
      rw [gm_checkSt_bind_neg hne]
      exact ⟨_, rfl⟩

theorem gm_mergeFaces_bridge_error (m : GeoMap) (d : Int) (hwf : m.wellFormedB = true)
    (e : GeoMap.Edge) (he : m.dartEdge d = some e)
    (hbr : e.leftFaceLabel = e.rightFaceLabel) (fuel : Nat) :
    ∃ msg, m.mergeFaces d fuel = Except.error (msg, m) := by
  have hLany : ∀ d' : Int, d'.natAbs = d.natAbs →
      m.dartLeftFaceLabel d' = some e.leftFaceLabel := by
    intro d' hab
    rw [GeoMap.dartLeftFaceLabel, GeoMap.dartEdge, hab,
      show m.edge d.natAbs = some e from he]
    simp only [Option.map_some']
    split
    · rfl
    · rw [hbr]
  have hRany : ∀ d' : Int, d'.natAbs = d.natAbs →
      m.dartRightFaceLabel d' = some e.leftFaceLabel := by
    intro d' hab
    rw [GeoMap.dartRightFaceLabel, GeoMap.dartEdge, hab,
      show m.edge d.natAbs = some e from he]
    simp only [Option.map_some']
    split
    · rw [hbr]
    · rfl
  have hEany : ∀ d' : Int, d'.natAbs = d.natAbs → m.dartEdge d' = some e := by
    intro d' hab
    rw [GeoMap.dartEdge, hab]
    exact he
  rw [GeoMap.mergeFaces, gm_reqSt_bind_some (hLany d rfl)]
  rcases hfc : m.face e.leftFaceLabel with _ | f
  · rw [gm_reqSt_bind_none rfl]; exact ⟨_, rfl⟩
  · rw [gm_reqSt_bind_some rfl, gm_reqSt_bind_some (hRany d rfl), gm_reqSt_bind_some hfc]
    rcases har : m.faceArea f fuel with _ | ar
    · rw [gm_reqSt_bind_none rfl]; exact ⟨_, rfl⟩
    · rw [gm_reqSt_bind_some rfl, gm_reqSt_bind_some rfl, if_neg (lt_irrefl ar),
        gm_reqSt_bind_some (hRany d rfl)]
      by_cases hF : e.leftFaceLabel = 0
      · rw [if_pos hF, gm_reqSt_bind_some (hEany (-d) (Int.natAbs_neg d)),
          gm_reqSt_bind_some (hLany (-d) (Int.natAbs_neg d)), gm_reqSt_bind_some hfc,
          gm_reqSt_bind_some (hRany (-d) (Int.natAbs_neg d)), gm_reqSt_bind_some hfc]
        rcases hsn : m.dartStartNodeLabel (-d) with _ | n1l
        · rw [gm_reqSt_bind_none rfl]; exact ⟨_, rfl⟩
        · rw [gm_reqSt_bind_some rfl]
          rcases hn1 : m.node n1l with _ | n1
          · rw [gm_reqSt_bind_none rfl]; exact ⟨_, rfl⟩
          · rw [gm_reqSt_bind_some rfl]
            rcases hen : m.dartEndNodeLabel (-d) with _ | n2l
            · rw [gm_reqSt_bind_none rfl]; exact ⟨_, rfl⟩
            · rw [gm_reqSt_bind_some rfl]
              rcases hn2 : m.node n2l with _ | n2
              · rw [gm_reqSt_bind_none rfl]; exact ⟨_, rfl⟩
              · rw [gm_reqSt_bind_some rfl,
                  gm_checkSt_bind_neg (by simp : ¬ (f.label ≠ f.label))]
                exact ⟨_, rfl⟩
      · rw [if_neg hF, gm_reqSt_bind_some (hEany d rfl),
          gm_reqSt_bind_some (hLany d rfl), gm_reqSt_bind_some hfc,
          gm_reqSt_bind_some (hRany d rfl), gm_reqSt_bind_some hfc]
        rcases hsn : m.dartStartNodeLabel d with _ | n1l
        · rw [gm_reqSt_bind_none rfl]; exact ⟨_, rfl⟩
        · rw [gm_reqSt_bind_some rfl]
          rcases hn1 : m.node n1l with _ | n1
          · rw [gm_reqSt_bind_none rfl]; exact ⟨_, rfl⟩
          · rw [gm_reqSt_bind_some rfl]
            rcases hen : m.dartEndNodeLabel d with _ | n2l
            · rw [gm_reqSt_bind_none rfl]; exact ⟨_, rfl⟩
            · rw [gm_reqSt_bind_some rfl]
              rcases hn2 : m.node n2l with _ | n2
              · rw [gm_reqSt_bind_none rfl]; exact ⟨_, rfl⟩
              · rw [gm_reqSt_bind_some rfl,
                  gm_checkSt_bind_neg (by simp : ¬ (f.label ≠ f.label))]
                exact ⟨_, rfl⟩

theorem gm_wf_startNode_mem {m : GeoMap} (hwf : m.wellFormedB = true) {d : Int} (hd : d ≠ 0)
    {nl : Nat} {n : GeoMap.Node} (hnl : m.dartStartNodeLabel d = some nl)
    (hn : m.node nl = some n) : d ∈ n.darts := by
  rw [GeoMap.dartStartNodeLabel] at hnl
  rcases he : m.dartEdge d with _ | e
  · rw [he] at hnl; simp at hnl
  · rw [he] at hnl
    simp only [Option.map_some'] at hnl
    have hnl' : (if d > 0 then e.startNodeLabel else e.endNodeLabel) = nl :=
      Option.some.inj hnl
    obtain ⟨⟨ns, hns, hposmem⟩, ⟨ne', hne', hnegmem⟩⟩ :=
      gm_edgeOk_darts (gm_wf_edge hwf (show m.edge d.natAbs = some e from he))
    rcases lt_trichotomy d 0 with hlt | h0 | hgt
    · rw [if_neg (by omega : ¬ d > 0)] at hnl'
      rw [hnl', hn] at hne'
      have hne2 : ne' = n := (Option.some.inj hne').symm
      have hdv : -((d.natAbs : Int)) = d := by
        omega
      rw [hne2, hdv] at hnegmem
      exact hnegmem
    · exact absurd h0 hd
    · rw [if_pos hgt] at hnl'
      rw [hnl', hn] at hns
      have hns2 : ns = n := (Option.some.inj hns).symm
      have hdv : ((d.natAbs : Int)) = d := by omega
      rw [hns2, hdv] at hposmem
      exact hposmem

theorem gm_mergeEdges_degree_error (m : GeoMap) (d : Int) (hd : d ≠ 0) (hwf : m.wellFormedB = true)
    (nl : Nat) (node : GeoMap.Node) (hnl : m.dartStartNodeLabel d = some nl)
    (hnode : m.node nl = some node) (hdeg : node.darts.length ≠ 2) :
    ∃ msg, m.mergeEdges d = Except.error (msg, m) := by
  have hmem : d ∈ node.darts := gm_wf_startNode_mem hwf hd hnl hnode
  obtain ⟨i, hix⟩ := gm_idxOfFirst_isSome hmem
  have hilt := gm_idxOfFirst_lt hix
  have hnd : node.darts.Nodup := gm_nodeOk_nodup (gm_wf_node hwf hnode)
  obtain ⟨hlt1, hns⟩ := gm_nextSigma_spec hnl hnode hix
  rw [GeoMap.mergeEdges, gm_reqSt_bind_some hns]
  by_cases hsl : (node.darts.get ⟨(i + 1) % node.darts.length, hlt1⟩).natAbs = d.natAbs
  · rw [gm_checkSt_bind_neg (not_not_intro hsl)]
    exact ⟨_, rfl⟩
  · rw [gm_checkSt_bind_pos hsl]
    have hmem1 : node.darts.get ⟨(i + 1) % node.darts.length, hlt1⟩ ∈ node.darts :=
      List.get_mem _ _ _
    have hnl1 : m.dartStartNodeLabel (node.darts.get ⟨(i + 1) % node.darts.length, hlt1⟩) =
        some nl := gm_wf_dart_startNode hwf hnode hmem1
    have hix1 : idxOfFirst (node.darts.get ⟨(i + 1) % node.darts.length, hlt1⟩) node.darts =
        some ((i + 1) % node.darts.length) := gm_idxOfFirst_nodup hnd hlt1 rfl
    obtain ⟨hlt2, hns2⟩ := gm_nextSigma_spec hnl1 hnode hix1
    rw [gm_reqSt_bind_some hns2]
    have hget_i : node.darts.get ⟨i, hilt⟩ = d := gm_idxOfFirst_get hix hilt
    have hcontra : ¬ (node.darts.get
        ⟨((i + 1) % node.darts.length + 1) % node.darts.length, hlt2⟩ = d) := by
      intro heq2
      by_cases hlen1 : node.darts.length = 1
      · have hi0 : i = 0 := by omega
        apply hsl
        have hfe : ((i + 1) % node.darts.length) = i := by rw [hlen1]; omega
        have : node.darts.get ⟨(i + 1) % node.darts.length, hlt1⟩ =
            node.darts.get ⟨i, hilt⟩ := congrArg _ (Fin.ext hfe)
        rw [this, hget_i]
      · have hfin : (⟨((i + 1) % node.darts.length + 1) % node.darts.length, hlt2⟩ :
            Fin node.darts.length) = ⟨i, hilt⟩ :=
          (List.Nodup.get_inj_iff hnd).mp (heq2.trans hget_i.symm)
        have hival : ((i + 1) % node.darts.length + 1) % node.darts.length = i := by
          simpa using congrArg Fin.val hfin
        have hb : (i + 1) % node.darts.length = i + 1 ∧ i + 1 < node.darts.length ∨
            (i + 1) % node.darts.length = 0 ∧ i + 1 = node.darts.length := by
          rcases Nat.lt_or_ge (i + 1) node.darts.length with h | h
          · exact Or.inl ⟨Nat.mod_eq_of_lt h, h⟩
          · have he1 : i + 1 = node.darts.length := by omega
            exact Or.inr ⟨by rw [he1, Nat.mod_self], he1⟩
        have ha2 : (i + 1) % node.darts.length < node.darts.length :=
          Nat.mod_lt _ (by omega)
        have hc : ((i + 1) % node.darts.length + 1) % node.darts.length =
              (i + 1) % node.darts.length + 1 ∧
              (i + 1) % node.darts.length + 1 < node.darts.length ∨
            ((i + 1) % node.darts.length + 1) % node.darts.length = 0 ∧
              (i + 1) % node.darts.length + 1 = node.darts.length := by
          rcases Nat.lt_or_ge ((i + 1) % node.darts.length + 1) node.darts.length with h | h
          · exact Or.inl ⟨Nat.mod_eq_of_lt h, h⟩
          · have he1 : (i + 1) % node.darts.length + 1 = node.darts.length := by omega
            exact Or.inr ⟨by rw [he1, Nat.mod_self], he1⟩
        omega
    rw [gm_checkSt_bind_neg hcontra]
    exact ⟨_, rfl⟩


/-- C6: the Euler-operator preconditions are validated up front and a
violating call fails without mutating the map (the raised error carries
the unchanged map state, and in the `labelImage_ == NULL` configuration
embedded here there is no raster to touch): `mergeEdges` fails on every
dart whose start node has degree other than 2, `removeBridge` fails on
every non-bridge dart, and `mergeFaces` fails on every bridge dart. -/
theorem c6_euler_preconditions (m : GeoMap) (d : Int)
    (hd : d ≠ 0) (hwf : m.wellFormedB = true) :
    (∀ nl node, m.dartStartNodeLabel d = some nl → m.node nl = some node →
        node.darts.length ≠ 2 →
        ∃ msg, m.mergeEdges d = Except.error (msg, m)) ∧
    (∀ e, m.dartEdge d = some e → e.leftFaceLabel ≠ e.rightFaceLabel →
        ∀ fuel, ∃ msg, m.removeBridge d fuel = Except.error (msg, m)) ∧
    (∀ e, m.dartEdge d = some e → e.leftFaceLabel = e.rightFaceLabel →
        ∀ fuel, ∃ msg, m.mergeFaces d fuel = Except.error (msg, m)) :=
  ⟨fun nl node hnl hnode hdeg =>
      gm_mergeEdges_degree_error m d hd hwf nl node hnl hnode hdeg,
   fun e he hnb fuel => gm_removeBridge_nonbridge_error m d hwf e he hnb fuel,
   fun e he hbr fuel => gm_mergeFaces_bridge_error m d hwf e he hbr fuel⟩

/-- Witness for C6: `mergeEdges` fails on the pendant edge's degree-1
start node, `removeBridge` fails on the triangle's non-bridge dart 1,
and `mergeFaces` fails on the pendant edge (whose two face labels are
both still uninitialized, hence equal). -/
theorem c6_euler_preconditions_witness :
    (∃ msg, mapPendant.mergeEdges 1 = Except.error (msg, mapPendant)) ∧
    (∃ msg, mapTri.removeBridge 1 20 = Except.error (msg, mapTri)) ∧
    (∃ msg, mapPendant.mergeFaces 1 20 = Except.error (msg, mapPendant)) :=
  ⟨(c6_euler_preconditions mapPendant 1 (by decide)
        (by with_unfolding_all decide)).1 1
      { label := 1, position := (0, 0), darts := [1] }
      (by with_unfolding_all rfl) (by with_unfolding_all rfl)
      (by with_unfolding_all decide),
   (c6_euler_preconditions mapTri 1 (by decide)
        (by with_unfolding_all decide)).2.1
      { label := 1, startNodeLabel := 1, endNodeLabel := 2,
        leftFaceLabel := 1, rightFaceLabel := 0, points := [(0, 0), (10, 0)] }
      (by with_unfolding_all rfl) (by decide) 20,
   (c6_euler_preconditions mapPendant 1 (by decide)
        (by with_unfolding_all decide)).2.2
      { label := 1, startNodeLabel := 1, endNodeLabel := 2,
        leftFaceLabel := UNINITIALIZED_CELL_LABEL,
        rightFaceLabel := UNINITIALIZED_CELL_LABEL,
        points := [(0, 0), (1, 0)] }
      (by with_unfolding_all rfl) rfl 20⟩

theorem gm_getD_some_get {α : Type} {l : List (Option α)} {i : Nat} {a : α}
    (h : l.getD i none = some a) : ∃ hlt : i < l.length, l.get ⟨i, hlt⟩ = some a := by
  have hlt := gm_getD_some_lt h
  refine ⟨hlt, ?_⟩
  rw [List.getD_eq_getElem?_getD, List.getElem?_eq_getElem hlt] at h
  simpa using h

theorem gm_degreeSum_congr {m m' : GeoMap} (h : m'.nodes = m.nodes) :
    m'.degreeSum = m.degreeSum := by
  rw [GeoMap.degreeSum, GeoMap.degreeSum, h]

theorem gm_edgeCount_congr {m m' : GeoMap} (h : m'.edges = m.edges) :
    m'.edgeCount = m.edgeCount := by
  rw [GeoMap.edgeCount, GeoMap.edgeCount, liveCount, liveCount, h]

theorem gm_degree_eq {m : GeoMap} {l : Nat} {n : GeoMap.Node}
    (hn : m.node l = some n) : m.degree l = n.darts.length := by
  rw [GeoMap.degree, hn]

theorem gm_degreeSum_modifyNode_some {m : GeoMap} {l : Nat} {n : GeoMap.Node}
    (hn : m.node l = some n) (f : GeoMap.Node → GeoMap.Node) :
    (m.modifyNode l f).degreeSum + n.darts.length = m.degreeSum + (f n).darts.length := by
  obtain ⟨hlt, hget⟩ := gm_getD_some_get hn
  rw [GeoMap.modifyNode]
  simp only [hn]
  have h := gm_sum_map_set (fun s => match s with | none => 0 | some x => x.darts.length)
    m.nodes l (some (f n)) hlt
  rw [hget] at h
  exact h

theorem gm_degreeSum_modifyNode_erase {m : GeoMap} {l : Nat} {n : GeoMap.Node}
    (hn : m.node l = some n) {d : Int} (hd : d ∈ n.darts) :
    (m.modifyNode l (fun x => { x with darts := x.darts.erase d })).degreeSum + 1 =
      m.degreeSum := by
  have h2 : (m.modifyNode l (fun x => { x with darts := x.darts.erase d })).degreeSum +
      n.darts.length = m.degreeSum + (n.darts.erase d).length :=
    gm_degreeSum_modifyNode_some hn _
  have h3 : (n.darts.erase d).length = n.darts.length - 1 := List.length_erase_of_mem hd
  have h4 : 0 < n.darts.length := List.length_pos_of_mem hd
  omega

theorem gm_degreeSum_modifyNode_append {m : GeoMap} {l : Nat} {n : GeoMap.Node}
    (hn : m.node l = some n) (d : Int) :
    (m.modifyNode l (fun x => { x with darts := x.darts ++ [d] })).degreeSum =
      m.degreeSum + 1 := by
  have h2 : (m.modifyNode l (fun x => { x with darts := x.darts ++ [d] })).degreeSum +
      n.darts.length = m.degreeSum + (n.darts ++ [d]).length :=
    gm_degreeSum_modifyNode_some hn _
  simp only [List.length_append, List.length_singleton] at h2
  omega

theorem gm_degreeSum_uninitializeNodeObj {m : GeoMap} {n cur : GeoMap.Node}
    (hcur : m.node n.label = some cur) :
    (m.uninitializeNodeObj n).degreeSum + cur.darts.length = m.degreeSum := by
  obtain ⟨hlt, hget⟩ := gm_getD_some_get hcur
  have h := gm_sum_map_set (fun s => match s with | none => 0 | some x => x.darts.length)
    m.nodes n.label none hlt
  rw [hget] at h
  simpa [GeoMap.degreeSum, GeoMap.uninitializeNodeObj] using h

theorem gm_edgeCount_setEdge {m : GeoMap} {l : Nat} {e : GeoMap.Edge}
    (he : m.edge l = some e) (v : Option GeoMap.Edge) :
    (m.setEdge l v).edgeCount + 1 = m.edgeCount + (if v.isSome then 1 else 0) := by
  obtain ⟨hlt, hget⟩ := gm_getD_some_get he
  have h := gm_countP_set (fun s => s.isSome) m.edges l v hlt
  rw [hget] at h
  simpa [GeoMap.edgeCount, liveCount, GeoMap.setEdge] using h

theorem gm_edgeCount_setEdge_some {m : GeoMap} {l : Nat} {e e' : GeoMap.Edge}
    (he : m.edge l = some e) :
    (m.setEdge l (some e')).edgeCount = m.edgeCount := by
  have h := gm_edgeCount_setEdge he (some e')
  simp at h
  omega

theorem gm_edgeCount_uninitializeEdge {m : GeoMap} {l : Nat} {e : GeoMap.Edge}
    (he : m.edge l = some e) :
    (m.uninitializeEdge l).edgeCount + 1 = m.edgeCount := by
  have h := gm_edgeCount_setEdge he none
  simpa [GeoMap.uninitializeEdge] using h

theorem gm_edgeCount_modifyEdge (m : GeoMap) (l : Nat) (f : GeoMap.Edge → GeoMap.Edge) :
    (m.modifyEdge l f).edgeCount = m.edgeCount := by
  rw [GeoMap.modifyEdge]
  split
  · rfl
  · rename_i e heq
    exact gm_edgeCount_setEdge_some heq

theorem gm_edge_isSome_modifyEdge (m : GeoMap) (l : Nat) (f : GeoMap.Edge → GeoMap.Edge)
    (l' : Nat) : ((m.modifyEdge l f).edge l').isSome = (m.edge l').isSome := by
  rw [GeoMap.modifyEdge]
  split
  · rfl
  · rename_i e heq
    by_cases h : l = l'
    · subst h
      obtain ⟨hlt, _⟩ := gm_getD_some_get heq
      rw [gm_edge_setEdge_self hlt, heq]
      rfl
    · rw [gm_edge_setEdge_ne h]

theorem gm_liveCount_append_nones {α : Type} (l : List (Option α)) (k : Nat) :
    liveCount (l ++ List.replicate k none) = liveCount l := by
  rw [liveCount, liveCount, List.countP_append]
  have h : ∀ j, (List.replicate j (none : Option α)).countP (fun s => s.isSome) = 0 := by
    intro j
    induction j with
    | zero => rfl
    | succ j ih => simp [List.replicate_succ, List.countP_cons, ih]
  rw [h]
  omega

theorem gm_node_modifyNode_self {m : GeoMap} {l : Nat} {n : GeoMap.Node}
    (hn : m.node l = some n) (f : GeoMap.Node → GeoMap.Node) :
    (m.modifyNode l f).node l = some (f n) := by
  rw [GeoMap.modifyNode]
  simp only [hn]
  exact gm_node_setNode_self (gm_getD_some_lt hn)

theorem gm_node_modifyNode_ne (m : GeoMap) {l l' : Nat} (f : GeoMap.Node → GeoMap.Node)
    (h : l ≠ l') : (m.modifyNode l f).node l' = m.node l' := by
  rw [GeoMap.modifyNode]
  split
  · rfl
  · exact gm_node_setNode_ne h

theorem gm_repaintOrbit_edges {sl : Nat} :
    ∀ {fuel : Nat} {mm mm' : GeoMap} {d : Int},
      GeoMap.repaintOrbit sl fuel mm d = Except.ok mm' →
      (∀ l, (mm'.edge l).isSome = (mm.edge l).isSome) ∧ mm'.edgeCount = mm.edgeCount
  | 0, mm, mm', d, h => by simp [GeoMap.repaintOrbit] at h
  | fuel + 1, mm, mm', d, h => by
    rw [GeoMap.repaintOrbit] at h
    simp only [gm_exceptBind_ok, gm_reqSt_ok, gm_pure_ok] at h
    obtain ⟨d', hd', l, hl, h⟩ := h
    by_cases hsl : l = sl
    · rw [if_pos hsl] at h
      simp only [gm_pure_ok] at h
      cases h
      exact ⟨fun _ => rfl, rfl⟩
    · rw [if_neg hsl] at h
      obtain ⟨h1, h2⟩ := gm_repaintOrbit_edges h
      rw [GeoMap.setDartLeftFaceLabel] at h1 h2
      exact ⟨fun l' => (h1 l').trans (gm_edge_isSome_modifyEdge _ _ _ _),
        h2.trans (gm_edgeCount_modifyEdge _ _ _)⟩

theorem gm_repaintAnchors_edges {sl : Nat} {fuel : Nat} :
    ∀ {anchors : List Int} {mm mm' : GeoMap},
      GeoMap.repaintAnchors sl fuel mm anchors = Except.ok mm' →
      (∀ l, (mm'.edge l).isSome = (mm.edge l).isSome) ∧ mm'.edgeCount = mm.edgeCount
  | [], mm, mm', h => by
    rw [GeoMap.repaintAnchors] at h
    cases h
    exact ⟨fun _ => rfl, rfl⟩
  | a :: rest, mm, mm', h => by
    rw [GeoMap.repaintAnchors] at h
    simp only [gm_exceptBind_ok] at h
    obtain ⟨mmi, hmi, h⟩ := h
    obtain ⟨i1, i2⟩ := gm_repaintOrbit_edges hmi
    obtain ⟨j1, j2⟩ := gm_repaintAnchors_edges h
    exact ⟨fun l' => (j1 l').trans (i1 l'), j2.trans i2⟩

theorem gm_uninitializeEdge_nodes (m : GeoMap) (l : Nat) :
    (m.uninitializeEdge l).nodes = m.nodes := rfl

theorem gm_dartEnd_eq_start_neg {m : GeoMap} {d : Int} (hd : d ≠ 0) :
    m.dartEndNodeLabel d = m.dartStartNodeLabel (-d) := by
  rw [GeoMap.dartEndNodeLabel, GeoMap.dartStartNodeLabel, GeoMap.dartEdge,
    GeoMap.dartEdge, Int.natAbs_neg]
  rcases lt_trichotomy d 0 with hlt | heq | hgt
  · have h1 : (0 : Int) < -d := by omega
    simp [hlt.not_lt, h1, hlt]
  · exact absurd heq hd
  · have h1 : ¬ ((0 : Int) < -d) := by omega
    simp [hgt, h1]

theorem gm_degreeSum_modifyNode_len {m : GeoMap} {l : Nat} {f : GeoMap.Node → GeoMap.Node}
    (hf : ∀ x, (f x).darts.length = x.darts.length) :
    (m.modifyNode l f).degreeSum = m.degreeSum := by
  rcases heq : m.node l with _ | n
  · rw [GeoMap.modifyNode]
    simp only [heq]
  · have h := gm_degreeSum_modifyNode_some heq f
    rw [hf n] at h
    omega

theorem gm_sigma_two_cycle {m : GeoMap} (hwf : m.wellFormedB = true) {d d1 : Int}
    {nl : Nat} {n : GeoMap.Node}
    (hd : d ≠ 0) (hnl : m.dartStartNodeLabel d = some nl) (hn : m.node nl = some n)
    (h1 : m.nextSigma d = some d1) (h2 : m.nextSigma d1 = some d)
    (hne : d1.natAbs ≠ d.natAbs) : n.darts.length = 2 := by
  have hmem : d ∈ n.darts := gm_wf_startNode_mem hwf hd hnl hn
  obtain ⟨i, hix⟩ := gm_idxOfFirst_isSome hmem
  have hilt := gm_idxOfFirst_lt hix
  have hnd := gm_nodeOk_nodup (gm_wf_node hwf hn)
  obtain ⟨hlt1, hs1⟩ := gm_nextSigma_spec hnl hn hix
  rw [h1] at hs1
  have hd1get : d1 = n.darts.get ⟨(i + 1) % n.darts.length, hlt1⟩ := Option.some.inj hs1
  have hnl1 : m.dartStartNodeLabel d1 = some nl :=
    gm_wf_dart_startNode hwf hn (hd1get ▸ List.get_mem _ _ _)
  have hix1 : idxOfFirst d1 n.darts = some ((i + 1) % n.darts.length) :=
    gm_idxOfFirst_nodup hnd hlt1 hd1get.symm
  obtain ⟨hlt2, hs2⟩ := gm_nextSigma_spec hnl1 hn hix1
  rw [h2] at hs2
  have hget_i : n.darts.get ⟨i, hilt⟩ = d := gm_idxOfFirst_get hix hilt
  have hdget : d = n.darts.get
      ⟨((i + 1) % n.darts.length + 1) % n.darts.length, hlt2⟩ := Option.some.inj hs2
  have hfin : (⟨((i + 1) % n.darts.length + 1) % n.darts.length, hlt2⟩ :
      Fin n.darts.length) = ⟨i, hilt⟩ :=
    (List.Nodup.get_inj_iff hnd).mp (hdget.symm.trans hget_i.symm)
  have hival : ((i + 1) % n.darts.length + 1) % n.darts.length = i := by
    simpa using congrArg Fin.val hfin
  by_cases hlen1 : n.darts.length = 1
  · exfalso
    apply hne
    have hfe : ((i + 1) % n.darts.length) = i := by rw [hlen1]; omega
    rw [hd1get,
      show (⟨(i + 1) % n.darts.length, hlt1⟩ : Fin n.darts.length) = ⟨i, hilt⟩ from
        Fin.ext hfe, hget_i]
  · have hb : (i + 1) % n.darts.length = i + 1 ∧ i + 1 < n.darts.length ∨
        (i + 1) % n.darts.length = 0 ∧ i + 1 = n.darts.length := by
      rcases Nat.lt_or_ge (i + 1) n.darts.length with h | h
      · exact Or.inl ⟨Nat.mod_eq_of_lt h, h⟩
      · have he1 : i + 1 = n.darts.length := by omega
        exact Or.inr ⟨by rw [he1, Nat.mod_self], he1⟩
    have ha2 : (i + 1) % n.darts.length < n.darts.length := Nat.mod_lt _ (by omega)
    have hc : ((i + 1) % n.darts.length + 1) % n.darts.length =
          (i + 1) % n.darts.length + 1 ∧
          (i + 1) % n.darts.length + 1 < n.darts.length ∨
        ((i + 1) % n.darts.length + 1) % n.darts.length = 0 ∧
          (i + 1) % n.darts.length + 1 = n.darts.length := by
      rcases Nat.lt_or_ge ((i + 1) % n.darts.length + 1) n.darts.length with h | h
      · exact Or.inl ⟨Nat.mod_eq_of_lt h, h⟩
      · have he1 : (i + 1) % n.darts.length + 1 = n.darts.length := by omega
        exact Or.inr ⟨by rw [he1, Nat.mod_self], he1⟩
    omega

set_option maxHeartbeats 1000000 in
theorem gm_mergeEdges_counts {m : GeoMap} {dart : Int} {m' : GeoMap} {s : Nat}
    (hd : dart ≠ 0) (hwf : m.wellFormedB = true)
    (hok : m.mergeEdges dart = Except.ok (m', s)) :
    m'.degreeSum + 2 = m.degreeSum ∧ m'.edgeCount + 1 = m.edgeCount := by
  rw [GeoMap.mergeEdges] at hok
  simp only [gm_exceptBind_ok, gm_reqSt_ok, gm_checkSt_ok, gm_pure_ok, exists_const,
    Prod.mk.injEq] at hok
  obtain ⟨d1, hd1, hne, d2, hd2, rfl, d1l, hd1l, d1r, hd1r, d2l, hd2l, d2r, hd2r,
    heq1, heq2, f6, hf6, f7, hf7, m1, hm1, m2, hm2, mnl, hmnl, mN, hmN, eS, heS,
    eM, heM, cenl, hcenl, cenN, hcenN, cidx, hcidx, hm', hs⟩ := hok
  subst hm'
  obtain ⟨nl, n, hsnl, hn, hd1mem⟩ := gm_nextSigma_inv hd1
  obtain ⟨h8e, h8n, h8fl, h8nm⟩ := gm_adjustFaceAnchors_state hm1
  obtain ⟨h9e, h9n, h9fl, h9nm⟩ := gm_adjustFaceAnchors_state hm2
  have hm2e : m2.edges = m.edges := h9e.trans h8e
  have hm2n : m2.nodes = m.nodes := h9n.trans h8n
  rw [gm_dartStartNodeLabel_congr hm2e, gm_wf_dart_startNode hwf hn hd1mem] at hmnl
  have hmnl2 : mnl = nl := by cases hmnl; rfl
  rw [hmnl2, gm_node_congr hm2n, hn] at hmN
  have hmNn : mN = n := (Option.some.inj hmN).symm
  rw [gm_dartEdge_congr hm2e] at heS heM
  rw [GeoMap.dartEdge] at heS heM
  have heMlab : eM.label = d2.natAbs := gm_edgeOk_label (gm_wf_edge hwf heM)
  have hlen2 : n.darts.length = 2 := gm_sigma_two_cycle hwf hd hsnl hn hd1 hd2 hne
  have hcenl' : m.dartStartNodeLabel (-d2) = some cenl := by
    rw [← gm_dartStartNodeLabel_congr hm2e]
    exact hcenl
  have hcen_ne : cenl ≠ nl := by
    intro hceq
    have hn' : m.node cenl = some n := by rw [hceq]; exact hn
    have hmemneg : -d2 ∈ n.darts :=
      gm_wf_startNode_mem hwf (by omega : -d2 ≠ 0) hcenl' hn'
    have hmemd : d2 ∈ n.darts := gm_wf_startNode_mem hwf hd hsnl hn
    obtain ⟨i, hix⟩ := gm_idxOfFirst_isSome hmemd
    have hilt := gm_idxOfFirst_lt hix
    obtain ⟨hlt1, hs1⟩ := gm_nextSigma_spec hsnl hn hix
    rw [hd1] at hs1
    have hd1get : d1 = n.darts.get ⟨(i + 1) % n.darts.length, hlt1⟩ := Option.some.inj hs1
    have hget_i : n.darts.get ⟨i, hilt⟩ = d2 := gm_idxOfFirst_get hix hilt
    obtain ⟨j, hjget⟩ := List.mem_iff_get.mp hmemneg
    have hjlt : j.val < n.darts.length := j.isLt
    have hmod : (i + 1) % n.darts.length = (i + 1) % 2 := by rw [hlen2]
    have hij : j.val = i ∨ j.val = (i + 1) % n.darts.length := by omega
    rcases hij with hji | hji
    · have hthis : n.darts.get j = d2 := by
        rw [show j = ⟨i, hilt⟩ from Fin.ext hji, hget_i]
      rw [hjget] at hthis
      omega
    · have hthis : n.darts.get j = d1 := by
        rw [show j = ⟨(i + 1) % n.darts.length, hlt1⟩ from Fin.ext hji, ← hd1get]
      rw [hjget] at hthis
      apply hne
      rw [← hthis]
      simp [Int.natAbs_neg]
  have hmN2 : mN.darts.length = 2 := by rw [hmNn, hlen2]
  have hSgen : ∀ NS : GeoMap.Edge,
      (((((m2.setEdge d1.natAbs (some NS)).modifyNode cenl
        (fun x => { x with darts := x.darts.set cidx d1 })).uninitializeNodeObj
        mN).uninitializeEdge eM.label).degreeSum) + 2 = m.degreeSum := by
    intro NS
    have hS2 : ((m2.setEdge d1.natAbs (some NS)).modifyNode cenl
        (fun x => { x with darts := x.darts.set cidx d1 })).degreeSum = m.degreeSum := by
      rw [gm_degreeSum_modifyNode_len (fun x => by simp)]
      exact (gm_degreeSum_congr (gm_setEdge_nodes _ _ _)).trans (gm_degreeSum_congr hm2n)
    have hoccB : ((m2.setEdge d1.natAbs (some NS)).modifyNode cenl
        (fun x => { x with darts := x.darts.set cidx d1 })).node mN.label = some mN := by
      rw [hmNn, gm_nodeOk_label (gm_wf_node hwf hn)]
      rw [gm_node_modifyNode_ne _ _ hcen_ne, gm_node_congr (gm_setEdge_nodes _ _ _),
        gm_node_congr hm2n]
      exact hn
    have hS3 := gm_degreeSum_uninitializeNodeObj hoccB
    rw [hmN2, hS2] at hS3
    rw [gm_degreeSum_congr (gm_uninitializeEdge_nodes _ _)]
    exact hS3
  have hEgen : ∀ NS : GeoMap.Edge,
      (((((m2.setEdge d1.natAbs (some NS)).modifyNode cenl
        (fun x => { x with darts := x.darts.set cidx d1 })).uninitializeNodeObj
        mN).uninitializeEdge eM.label).edgeCount) + 1 = m.edgeCount := by
    intro NS
    have hm2eS : m2.edge d1.natAbs = some eS := by
      rw [gm_edge_congr hm2e]
      exact heS
    have hCe : (((m2.setEdge d1.natAbs (some NS)).modifyNode cenl
        (fun x => { x with darts := x.darts.set cidx d1 })).uninitializeNodeObj
        mN).edge eM.label = some eM := by
      rw [heMlab, gm_edge_congr (gm_uninitializeNodeObj_edges _ _),
        gm_edge_congr (gm_modifyNode_edges _ _ _), gm_edge_setEdge_ne hne,
        gm_edge_congr hm2e]
      exact heM
    have h4 := gm_edgeCount_uninitializeEdge hCe
    rw [gm_edgeCount_congr (gm_uninitializeNodeObj_edges _ _),
      gm_edgeCount_congr (gm_modifyNode_edges _ _ _),
      gm_edgeCount_setEdge_some hm2eS, gm_edgeCount_congr hm2e] at h4
    exact h4
  exact ⟨hSgen _, hEgen _⟩

theorem gm_uninitializeFace_nodes (m : GeoMap) (l : Nat) :
    (m.uninitializeFace l).nodes = m.nodes := rfl

set_option maxHeartbeats 2000000 in
theorem gm_mergeFaces_counts {m : GeoMap} {d : Int} {fuel : Nat} {m' : GeoMap} {s : Nat}
    (hd : d ≠ 0) (hwf : m.wellFormedB = true)
    (hok : m.mergeFaces d fuel = Except.ok (m', s)) :
    m'.degreeSum + 2 = m.degreeSum ∧ m'.edgeCount + 1 = m.edgeCount := by
  rw [GeoMap.mergeFaces] at hok
  simp only [gm_exceptBind_ok, gm_reqSt_ok, gm_checkSt_ok, gm_pure_ok, exists_const,
    Prod.mk.injEq] at hok
  obtain ⟨lfl, hLfl, lf, hLf, rfl', hRfl, rf, hRf, la, hLa, ra, hRa, rdr, hRdr,
    me, hMe, sl, hSl, surv, hSurv, ml, hMl, mf, hMf, n1l, hN1l, n1, hN1,
    n2l, hN2l, n2, hN2, hbne, c1, hC1, c2, hC2, m1, hM1, ch, hCh, sa, hSa,
    hMfin, hSfin⟩ := hok
  subst hMfin
  set RD := (if rdr = 0 then -(if la < ra then -d else d) else (if la < ra then -d else d))
    with hRDdef
  have hrdc : RD = d ∨ RD = -d := by
    rw [hRDdef]
    by_cases h1 : rdr = 0 <;> by_cases h2 : la < ra <;> simp [h1, h2]
  have hRD0 : RD ≠ 0 := by
    rcases hrdc with h | h <;> rw [h] <;> omega
  have hEd : m.edge d.natAbs = some me := by
    rcases hrdc with h | h
    · rw [h, GeoMap.dartEdge] at hMe
      exact hMe
    · rw [h, gm_dartEdge_neg, GeoMap.dartEdge] at hMe
      exact hMe
  have hme_lab : me.label = d.natAbs := gm_edgeOk_label (gm_wf_edge hwf hEd)
  have hmem1 : RD ∈ n1.darts := gm_wf_startNode_mem hwf hRD0 hN1l hN1
  have hmem2 : -RD ∈ n2.darts := by
    rw [gm_dartEnd_eq_start_neg hRD0] at hN2l
    exact gm_wf_startNode_mem hwf (by omega) hN2l hN2
  have hn1lab : n1.label = n1l := gm_nodeOk_label (gm_wf_node hwf hN1)
  have hn2lab : n2.label = n2l := gm_nodeOk_label (gm_wf_node hwf hN2)
  obtain ⟨hm1n, hm1f, hm1el, hm1nm⟩ := gm_repaintAnchors_state hM1
  obtain ⟨hm1some, hm1cnt⟩ := gm_repaintAnchors_edges hM1
  set m3 := ((m1.setFace sl (some { label := surv.label, anchors := surv.anchors.set c1 ch })).setFace sl (some { label := surv.label, anchors := sa ++ mf.anchors.eraseIdx c2 })) with hm3
  have hm3n : m3.nodes = m.nodes := by
    rw [hm3, gm_setFace_nodes, gm_setFace_nodes, hm1n]
  have hm3e : m3.edges = m1.edges := by
    rw [hm3, gm_setFace_edges, gm_setFace_edges]
  have hm3node : ∀ l', m3.node l' = m.node l' := fun l' => gm_node_congr hm3n l'
  set m4 := m3.modifyNode n1l (fun x => { x with darts := x.darts.erase RD }) with hm4
  have hocc1 : m3.node n1l = some n1 := by rw [hm3node]; exact hN1
  have hS4 : m4.degreeSum + 1 = m.degreeSum := by
    have h := gm_degreeSum_modifyNode_erase hocc1 hmem1
    rw [gm_degreeSum_congr hm3n] at h
    exact h
  set m5 := m4.modifyNode n2l (fun x => { x with darts := x.darts.erase (-RD) }) with hm5
  have hm4e : m4.edges = m3.edges := gm_modifyNode_edges _ _ _
  have hm5e : m5.edges = m3.edges := (gm_modifyNode_edges _ _ _).trans hm4e
  have hocc4 : ∃ x4, m4.node n2l = some x4 := by
    by_cases h12 : n1l = n2l
    · exact ⟨_, by rw [← h12, hm4]; exact gm_node_modifyNode_self hocc1 _⟩
    · exact ⟨n2, by rw [hm4, gm_node_modifyNode_ne _ _ h12, hm3node]; exact hN2⟩
  have hS5 : m5.degreeSum + 2 = m.degreeSum := by
    by_cases h12 : n1l = n2l
    · have hn21 : n2 = n1 := by
        have h' : m.node n1l = some n2 := by rw [h12]; exact hN2
        exact Option.some.inj (h'.symm.trans hN1)
      have hocc : m4.node n2l = some { n1 with darts := n1.darts.erase RD } := by
        rw [← h12, hm4]
        exact gm_node_modifyNode_self hocc1 _
      have hdmem : -RD ∈ n1.darts.erase RD :=
        (List.mem_erase_of_ne (by omega : -RD ≠ RD)).mpr (by rw [← hn21]; exact hmem2)
      have h := gm_degreeSum_modifyNode_erase hocc hdmem
      rw [← hm5] at h
      omega
    · have hocc : m4.node n2l = some n2 := by
        rw [hm4, gm_node_modifyNode_ne _ _ h12, hm3node]
        exact hN2
      have h := gm_degreeSum_modifyNode_erase hocc hmem2
      rw [← hm5] at h
      omega
  obtain ⟨x4, hx4⟩ := hocc4
  have hocc5n2 : m5.node n2l = some { x4 with darts := x4.darts.erase (-RD) } := by
    rw [hm5]
    exact gm_node_modifyNode_self hx4 _
  have hocc5n1 : ∃ cur1, m5.node n1l = some cur1 := by
    by_cases h12 : n2l = n1l
    · exact ⟨_, by rw [← h12]; exact hocc5n2⟩
    · refine ⟨{ n1 with darts := n1.darts.erase RD }, ?_⟩
      rw [hm5, gm_node_modifyNode_ne _ _ h12, hm4]
      exact gm_node_modifyNode_self hocc1 _
  set m6 := if m5.degree n2l = 0 ∧ n2.label ≠ n1.label
    then m5.uninitializeNodeObj n2 else m5 with hm6
  set m7 := if m5.degree n1l = 0 then m6.uninitializeNodeObj n1 else m6 with hm7
  have hS6 : m6.degreeSum = m5.degreeSum := by
    rw [hm6]
    split
    · rename_i hC2
      have hcur : m5.node n2.label = some { x4 with darts := x4.darts.erase (-RD) } := by
        rw [hn2lab]
        exact hocc5n2
      have hlen0 : ({ x4 with darts := x4.darts.erase (-RD) } : GeoMap.Node).darts.length = 0 := by
        have hde := gm_degree_eq hocc5n2
        omega
      have h := gm_degreeSum_uninitializeNodeObj hcur
      omega
    · rfl
  have hnode6 : m6.node n1l = m5.node n1l := by
    rw [hm6]
    split
    · rename_i hC2
      exact gm_uninitializeNodeObj_node_ne (fun hh => hC2.2 (hh.trans hn1lab.symm))
    · rfl
  have hS7 : m7.degreeSum = m6.degreeSum := by
    rw [hm7]
    split
    · rename_i hP
      obtain ⟨cur1, hcur1⟩ := hocc5n1
      have hc6 : m6.node n1.label = some cur1 := by
        rw [hn1lab, hnode6]
        exact hcur1
      have hlen0 : cur1.darts.length = 0 := by
        have hde := gm_degree_eq hcur1
        omega
      have h := gm_degreeSum_uninitializeNodeObj hc6
      omega
    · rfl
  have hm6e : m6.edges = m3.edges := by
    rw [hm6]
    split
    · exact (gm_uninitializeNodeObj_edges _ _).trans hm5e
    · exact hm5e
  have hm7e : m7.edges = m1.edges := by
    rw [hm7]
    have h6 := hm6e.trans hm3e
    split
    · exact (gm_uninitializeNodeObj_edges _ _).trans h6
    · exact h6
  have hm7cnt : m7.edgeCount = m.edgeCount := by
    rw [gm_edgeCount_congr hm7e, hm1cnt]
  have hcure : ∃ cure, m7.edge me.label = some cure := by
    rw [hme_lab]
    apply Option.isSome_iff_exists.mp
    rw [gm_edge_congr hm7e, hm1some, hEd]
    rfl
  obtain ⟨cure, hcure⟩ := hcure
  have hC8 := gm_edgeCount_uninitializeEdge hcure
  have hS8 : (m7.uninitializeEdge me.label).degreeSum = m7.degreeSum :=
    gm_degreeSum_congr (gm_uninitializeEdge_nodes _ _)
  constructor
  · rw [gm_degreeSum_congr (gm_uninitializeFace_nodes _ _), hS8, hS7, hS6]
    exact hS5
  · rw [gm_edgeCount_congr (gm_uninitializeFace_edges _ _), hC8, hm7cnt]

theorem gm_removeCollapsedEnd_counts {mm mm2 : GeoMap} {a : Int} {el lfl : Nat}
    {trim : List Int → List Int}
    (h : mm.removeCollapsedEnd a el lfl trim = Except.ok mm2)
    (hz : ∀ snl sn, a.natAbs = el → mm.dartStartNodeLabel a = some snl →
      mm.node snl = some sn → sn.label = snl ∧ sn.darts.length = 0) :
    mm2.degreeSum = mm.degreeSum ∧ mm2.edges = mm.edges ∧
    (∀ l', mm2.node l' = mm.node l' ∨ mm2.node l' = none) := by
  rw [GeoMap.removeCollapsedEnd] at h
  by_cases hcol : a.natAbs = el
  · rw [if_pos hcol] at h
    simp only [gm_exceptBind_ok, gm_reqSt_ok, gm_pure_ok] at h
    obtain ⟨snl, hsnl, sn, hsn, hmm2⟩ := h
    subst hmm2
    obtain ⟨hlab, hlen⟩ := hz snl sn hcol hsnl hsn
    refine ⟨?_, ?_, ?_⟩
    · have h1 := gm_degreeSum_uninitializeNodeObj (show mm.node sn.label = some sn by
        rw [hlab]; exact hsn)
      rw [gm_degreeSum_congr (gm_modifyFace_nodes _ _ _)]
      omega
    · rw [gm_modifyFace_edges, gm_uninitializeNodeObj_edges]
    · intro l'
      rw [gm_node_congr (gm_modifyFace_nodes _ _ _)]
      by_cases hl : sn.label = l'
      · refine Or.inr ?_
        rw [← hl]
        exact gm_uninitializeNodeObj_node_self (by
          rw [hlab]; exact gm_getD_some_lt hsn)
      · exact Or.inl (gm_uninitializeNodeObj_node_ne hl)
  · rw [if_neg hcol] at h
    simp only [gm_pure_ok] at h
    subst h
    exact ⟨rfl, rfl, fun _ => Or.inl rfl⟩

theorem gm_bridge_anchor_collapse {m : GeoMap} (hwf : m.wellFormedB = true)
    {dart : Int} (hd : dart ≠ 0) {n1l n2l : Nat} {node1 : GeoMap.Node}
    (hN1l : m.dartStartNodeLabel dart = some n1l) (hN1 : m.node n1l = some node1)
    (hN2l : m.dartEndNodeLabel dart = some n2l) (hne : n1l ≠ n2l)
    {na : Int} (hna : m.prevSigma dart = some na) (hcol : na.natAbs = dart.natAbs) :
    na = dart ∧ node1.darts.length = 1 := by
  have hmem : dart ∈ node1.darts := gm_wf_startNode_mem hwf hd hN1l hN1
  obtain ⟨i, hix⟩ := gm_idxOfFirst_isSome hmem
  have hilt := gm_idxOfFirst_lt hix
  have hnd := gm_nodeOk_nodup (gm_wf_node hwf hN1)
  obtain ⟨hlt, hsp⟩ := gm_prevSigma_spec hN1l hN1 hix
  rw [hna] at hsp
  have hnaget : na = node1.darts.get
      ⟨(i + node1.darts.length - 1) % node1.darts.length, hlt⟩ := Option.some.inj hsp
  have hnamem : na ∈ node1.darts := hnaget ▸ List.get_mem _ _ _
  have hnad : na = dart := by
    rcases Int.natAbs_eq_natAbs_iff.mp hcol with h | h
    · exact h
    · exfalso
      apply hne
      have h1 : m.dartStartNodeLabel (-dart) = some n1l :=
        gm_wf_dart_startNode hwf hN1 (h ▸ hnamem)
      rw [← gm_dartEnd_eq_start_neg hd, hN2l] at h1
      exact (Option.some.inj h1).symm
  refine ⟨hnad, ?_⟩
  have hget_i : node1.darts.get ⟨i, hilt⟩ = dart := gm_idxOfFirst_get hix hilt
  have hfin : (⟨(i + node1.darts.length - 1) % node1.darts.length, hlt⟩ :
      Fin node1.darts.length) = ⟨i, hilt⟩ :=
    (List.Nodup.get_inj_iff hnd).mp (by rw [← hnaget, hnad, hget_i])
  have hival : (i + node1.darts.length - 1) % node1.darts.length = i := by
    simpa using congrArg Fin.val hfin
  rcases i with _ | j
  · have h1 : (0 + node1.darts.length - 1) % node1.darts.length =
        0 + node1.darts.length - 1 := Nat.mod_eq_of_lt (by omega)
    omega
  · exfalso
    have h1 : (j + 1 + node1.darts.length - 1) % node1.darts.length =
        (j + node1.darts.length) % node1.darts.length := by
      congr 1
      omega
    have h2 : (j + node1.darts.length) % node1.darts.length = j % node1.darts.length :=
      Nat.add_mod_right j node1.darts.length
    have h3 : j % node1.darts.length = j := Nat.mod_eq_of_lt (by omega)
    omega

set_option maxHeartbeats 2000000 in
theorem gm_removeBridge_counts {m : GeoMap} {dart : Int} {fuel : Nat} {m' : GeoMap} {s : Nat}
    (hd : dart ≠ 0) (hwf : m.wellFormedB = true)
    (hok : m.removeBridge dart fuel = Except.ok (m', s)) :
    m'.degreeSum + 2 = m.degreeSum ∧ m'.edgeCount + 1 = m.edgeCount := by
  rw [GeoMap.removeBridge] at hok
  simp only [gm_exceptBind_ok, gm_reqSt_ok, gm_checkSt_ok, gm_pure_ok, exists_const,
    Prod.mk.injEq] at hok
  obtain ⟨e, he, lfl, hlfl, face, hface, rfl2, hrfl2, rface, hrface, hfeq, n1l, hN1l,
    n1, hN1, n2l, hN2l, n2, hN2, hnne, na1, hna1, na2, hna2, ci, hci, ds, hds,
    m4, h4, m5, h5, hm', hs⟩ := hok
  subst hm'
  have hn1lab : n1.label = n1l := gm_nodeOk_label (gm_wf_node hwf hN1)
  have hn2lab : n2.label = n2l := gm_nodeOk_label (gm_wf_node hwf hN2)
  have hne12 : n1l ≠ n2l := fun hh => hnne (by rw [hn1lab, hn2lab, hh])
  have hmem1 : dart ∈ n1.darts := gm_wf_startNode_mem hwf hd hN1l hN1
  have hstart2 : m.dartStartNodeLabel (-dart) = some n2l := by
    rw [← gm_dartEnd_eq_start_neg hd]
    exact hN2l
  have hend2 : m.dartEndNodeLabel (-dart) = some n1l := by
    have h := gm_dartEnd_eq_start_neg (m := m) (d := -dart) (by omega)
    rw [h, neg_neg]
    exact hN1l
  have hmem2 : -dart ∈ n2.darts := gm_wf_startNode_mem hwf (by omega) hstart2 hN2
  set m1s := m.modifyNode n1l (fun x => { x with darts := x.darts.erase dart }) with hm1s
  set m2s := m1s.modifyNode n2l (fun x => { x with darts := x.darts.erase (-dart) }) with hm2s
  set m3s := m2s.modifyFace lfl (fun f => { f with anchors := f.anchors.set ci (if ds = true then na2 else na1) ++ [if ds = true then na1 else na2] }) with hm3s
  have hS2 : m2s.degreeSum + 2 = m.degreeSum := by
    have h1 := gm_degreeSum_modifyNode_erase hN1 (d := dart) hmem1
    rw [← hm1s] at h1
    have hocc2 : m1s.node n2l = some n2 := by
      rw [hm1s, gm_node_modifyNode_ne _ _ hne12]
      exact hN2
    have h2 := gm_degreeSum_modifyNode_erase hocc2 (d := -dart) hmem2
    rw [← hm2s] at h2
    omega
  have hm2s_edges : m2s.edges = m.edges := by
    rw [hm2s, gm_modifyNode_edges, hm1s, gm_modifyNode_edges]
  have hm3s_edges : m3s.edges = m.edges := by
    rw [hm3s, gm_modifyFace_edges, hm2s_edges]
  have hm3s_deg : m3s.degreeSum = m2s.degreeSum := by
    rw [hm3s]
    exact gm_degreeSum_congr (gm_modifyFace_nodes _ _ _)
  have hocc3n1 : m3s.node n1l = some { n1 with darts := n1.darts.erase dart } := by
    rw [hm3s, gm_node_congr (gm_modifyFace_nodes _ _ _), hm2s,
      gm_node_modifyNode_ne _ _ (Ne.symm hne12), hm1s]
    exact gm_node_modifyNode_self hN1 _
  have hocc3n2 : m3s.node n2l = some { n2 with darts := n2.darts.erase (-dart) } := by
    rw [hm3s, gm_node_congr (gm_modifyFace_nodes _ _ _), hm2s]
    refine gm_node_modifyNode_self ?_ _
    rw [hm1s, gm_node_modifyNode_ne _ _ hne12]
    exact hN2
  have hss : ∀ dd : Int, m3s.dartStartNodeLabel dd = m.dartStartNodeLabel dd :=
    fun dd => gm_dartStartNodeLabel_congr hm3s_edges dd
  have hcol1 : na1.natAbs = dart.natAbs → na1 = dart ∧ n1.darts.length = 1 :=
    fun hc => gm_bridge_anchor_collapse hwf hd hN1l hN1 hN2l hne12 hna1 hc
  have hcol2 : na2.natAbs = dart.natAbs → na2 = -dart ∧ n2.darts.length = 1 :=
    fun hc => gm_bridge_anchor_collapse hwf (show -dart ≠ 0 by omega) hstart2 hN2
      hend2 (Ne.symm hne12) hna2 (by rw [Int.natAbs_neg]; exact hc)
  have hz4 : ∀ snl sn, (if ds = true then na2 else na1).natAbs = dart.natAbs →
      m3s.dartStartNodeLabel (if ds = true then na2 else na1) = some snl →
      m3s.node snl = some sn → sn.label = snl ∧ sn.darts.length = 0 := by
    intro snl sn hc hsnl hsn
    cases ds with
    | false =>
      simp only [Bool.false_eq_true, if_false] at hc hsnl
      obtain ⟨hna1d, hlen1⟩ := hcol1 hc
      rw [hna1d, hss] at hsnl
      have hsneq : n1l = snl := Option.some.inj (hN1l.symm.trans hsnl)
      subst hsneq
      rw [hocc3n1] at hsn
      have hsn' : sn = { n1 with darts := n1.darts.erase dart } := (Option.some.inj hsn).symm
      subst hsn'
      exact ⟨hn1lab, by rw [show ({ n1 with darts := n1.darts.erase dart } :
        GeoMap.Node).darts = n1.darts.erase dart from rfl,
        List.length_erase_of_mem hmem1, hlen1]⟩
    | true =>
      simp only [if_pos rfl] at hc hsnl
      obtain ⟨hna2d, hlen2⟩ := hcol2 hc
      rw [hna2d, hss] at hsnl
      have hsneq : n2l = snl := Option.some.inj (hstart2.symm.trans hsnl)
      subst hsneq
      rw [hocc3n2] at hsn
      have hsn' : sn = { n2 with darts := n2.darts.erase (-dart) } := (Option.some.inj hsn).symm
      subst hsn'
      exact ⟨hn2lab, by rw [show ({ n2 with darts := n2.darts.erase (-dart) } :
        GeoMap.Node).darts = n2.darts.erase (-dart) from rfl,
        List.length_erase_of_mem hmem2, hlen2]⟩
  obtain ⟨h4deg, h4edges, h4node⟩ := gm_removeCollapsedEnd_counts h4 hz4
  have hz5 : ∀ snl sn, (if ds = true then na1 else na2).natAbs = dart.natAbs →
      m4.dartStartNodeLabel (if ds = true then na1 else na2) = some snl →
      m4.node snl = some sn → sn.label = snl ∧ sn.darts.length = 0 := by
    intro snl sn hc hsnl hsn
    have h4ss : ∀ dd : Int, m4.dartStartNodeLabel dd = m.dartStartNodeLabel dd :=
      fun dd => (gm_dartStartNodeLabel_congr h4edges dd).trans (hss dd)
    cases ds with
    | false =>
      simp only [Bool.false_eq_true, if_false] at hc hsnl
      obtain ⟨hna2d, hlen2⟩ := hcol2 hc
      rw [hna2d, h4ss] at hsnl
      have hsneq : n2l = snl := Option.some.inj (hstart2.symm.trans hsnl)
      subst hsneq
      rcases h4node n2l with hh | hh
      · rw [hh, hocc3n2] at hsn
        have hsn' : sn = { n2 with darts := n2.darts.erase (-dart) } :=
          (Option.some.inj hsn).symm
        subst hsn'
        exact ⟨hn2lab, by rw [show ({ n2 with darts := n2.darts.erase (-dart) } :
          GeoMap.Node).darts = n2.darts.erase (-dart) from rfl,
          List.length_erase_of_mem hmem2, hlen2]⟩
      · rw [hh] at hsn
        simp at hsn
    | true =>
      simp only [if_pos rfl] at hc hsnl
      obtain ⟨hna1d, hlen1⟩ := hcol1 hc
      rw [hna1d, h4ss] at hsnl
      have hsneq : n1l = snl := Option.some.inj (hN1l.symm.trans hsnl)
      subst hsneq
      rcases h4node n1l with hh | hh
      · rw [hh, hocc3n1] at hsn
        have hsn' : sn = { n1 with darts := n1.darts.erase dart } :=
          (Option.some.inj hsn).symm
        subst hsn'
        exact ⟨hn1lab, by rw [show ({ n1 with darts := n1.darts.erase dart } :
          GeoMap.Node).darts = n1.darts.erase dart from rfl,
          List.length_erase_of_mem hmem1, hlen1]⟩
      · rw [hh] at hsn
        simp at hsn
  obtain ⟨h5deg, h5edges, _⟩ := gm_removeCollapsedEnd_counts h5 hz5
  rw [GeoMap.dartEdge] at he
  have heLab : e.label = dart.natAbs := gm_edgeOk_label (gm_wf_edge hwf he)
  have hm5edges : m5.edges = m.edges := h5edges.trans (h4edges.trans hm3s_edges)
  have hocc_e : m5.edge e.label = some e := by
    rw [heLab, gm_edge_congr hm5edges]
    exact he
  have hcnt := gm_edgeCount_uninitializeEdge hocc_e
  constructor
  · rw [gm_degreeSum_congr (gm_uninitializeEdge_nodes _ _), h5deg, h4deg, hm3s_deg]
    exact hS2
  · rw [hcnt]
    exact gm_edgeCount_congr hm5edges

/-- C7 (amended): each public mutator preserves the invariant
`degreeSum = 2 * edgeCount` (each live edge contributes exactly two dart
entries, one at each end node - a self-loop contributes both to the same
node - with no extra self-loop term): `addNode` unconditionally,
`addEdge` and `removeIsolatedNode` (on a degree-0 node) on success, and
the three Euler operators on success on a well-formed map. -/
theorem c7_degree_sum_invariant (m : GeoMap) (hinv : m.degreeSum = 2 * m.edgeCount) :
    (∀ p, (m.addNode p).1.degreeSum = 2 * (m.addNode p).1.edgeCount) ∧
    (∀ snl enl pts lbl m' l, m.addEdge snl enl pts lbl = Except.ok (m', l) →
        m'.degreeSum = 2 * m'.edgeCount) ∧
    (∀ hooks l n m' tr, m.wellFormedB = true → m.node l = some n → n.darts = [] →
        GeoMap.removeIsolatedNode hooks m l = Except.ok (m', tr) →
        m'.degreeSum = 2 * m'.edgeCount) ∧
    (∀ d m' s, d ≠ 0 → m.wellFormedB = true → m.mergeEdges d = Except.ok (m', s) →
        m'.degreeSum = 2 * m'.edgeCount) ∧
    (∀ d fuel m' s, d ≠ 0 → m.wellFormedB = true →
        m.removeBridge d fuel = Except.ok (m', s) → m'.degreeSum = 2 * m'.edgeCount) ∧
    (∀ d fuel m' s, d ≠ 0 → m.wellFormedB = true →
        m.mergeFaces d fuel = Except.ok (m', s) → m'.degreeSum = 2 * m'.edgeCount) := by
  refine ⟨?_, ?_, ?_, ?_, ?_, ?_⟩
  · intro p
    have h1 : (m.addNode p).1.degreeSum = m.degreeSum := by
      rw [GeoMap.addNode, GeoMap.degreeSum, GeoMap.degreeSum]
      simp
    have h2 : (m.addNode p).1.edgeCount = m.edgeCount := rfl
    rw [h1, h2, hinv]
  · intro snl enl pts lbl m' l hok
    rw [GeoMap.addEdge] at hok
    simp only [gm_exceptBind_ok, gm_reqSt_ok, gm_pure_ok, Prod.mk.injEq] at hok
    obtain ⟨u, hu, hm', hl⟩ := hok
    subst hm'
    set P := (if lbl > m.edges.length then
        { m with edges := m.edges ++ List.replicate (lbl - m.edges.length) none }
      else m) with hP
    have hPn : P.nodes = m.nodes := by
      rw [hP]
      split <;> rfl
    have hPcnt : P.edgeCount = m.edgeCount := by
      rw [hP]
      split
      · exact gm_liveCount_append_nones m.edges _
      · rfl
    have hPdeg : P.degreeSum = m.degreeSum := gm_degreeSum_congr hPn
    obtain ⟨ns, hns⟩ : ∃ ns, P.node snl = some ns := by
      rcases hh : P.node snl with _ | ns
      · rw [hh] at hu
        simp [Option.bind] at hu
      · exact ⟨ns, rfl⟩
    set E0 : GeoMap.Edge := { label := P.edges.length, startNodeLabel := snl, endNodeLabel := enl, leftFaceLabel := UNINITIALIZED_CELL_LABEL, rightFaceLabel := UNINITIALIZED_CELL_LABEL, points := pts } with hE0
    set P2 : GeoMap := { P with edges := P.edges ++ [some E0] } with hP2
    have hP2n : P2.nodes = P.nodes := rfl
    have hP2deg : P2.degreeSum = m.degreeSum := (gm_degreeSum_congr hP2n).trans hPdeg
    have hP2cnt : P2.edgeCount = m.edgeCount + 1 := by
      rw [← hPcnt]
      show liveCount (P.edges ++ [some E0]) = P.edgeCount + 1
      rw [liveCount, List.countP_append]
      have hone : List.countP (fun s => s.isSome) [some E0] = 1 := by simp
      rw [hone]
      rfl
    have hP2ns : P2.node snl = some ns := by
      rw [gm_node_congr hP2n]
      exact hns
    have hM1deg : (P2.modifyNode snl
        (fun x => { x with darts := x.darts ++ [(P.edges.length : Int)] })).degreeSum =
        m.degreeSum + 1 := by
      rw [gm_degreeSum_modifyNode_append hP2ns, hP2deg]
    obtain ⟨ne2, hne2⟩ : ∃ ne2, (P2.modifyNode snl
        (fun x => { x with darts := x.darts ++ [(P.edges.length : Int)] })).node enl =
        some ne2 := by
      by_cases hcase : snl = enl
      · exact ⟨_, by rw [← hcase]; exact gm_node_modifyNode_self hP2ns _⟩
      · rcases hh : P.node enl with _ | x
        · rw [hns, hh] at hu
          simp [Option.bind] at hu
        · refine ⟨x, ?_⟩
          rw [gm_node_modifyNode_ne _ _ hcase, gm_node_congr hP2n]
          exact hh
    have hM2deg : ((P2.modifyNode snl
        (fun x => { x with darts := x.darts ++ [(P.edges.length : Int)] })).modifyNode enl
        (fun x => { x with darts := x.darts ++ [-(P.edges.length : Int)] })).degreeSum =
        m.degreeSum + 2 := by
      rw [gm_degreeSum_modifyNode_append hne2, hM1deg]
    have hM2cnt : ((P2.modifyNode snl
        (fun x => { x with darts := x.darts ++ [(P.edges.length : Int)] })).modifyNode enl
        (fun x => { x with darts := x.darts ++ [-(P.edges.length : Int)] })).edgeCount =
        m.edgeCount + 1 := by
      rw [gm_edgeCount_congr (gm_modifyNode_edges _ _ _),
        gm_edgeCount_congr (gm_modifyNode_edges _ _ _), hP2cnt]
    rw [hM2deg, hM2cnt, hinv]
    ring
  · intro hooks l n m' tr hwf hn hdarts hok
    rw [GeoMap.removeIsolatedNode] at hok
    simp only [gm_exceptBind_ok, gm_reqSt_ok, gm_pure_ok, Prod.mk.injEq] at hok
    obtain ⟨n2, hn2, hm', htr⟩ := hok
    subst hm'
    have hn2n : n2 = n := by
      rw [hn] at hn2
      exact (Option.some.inj hn2).symm
    subst hn2n
    have hlab : n2.label = l := gm_nodeOk_label (gm_wf_node hwf hn)
    have hcur : m.node n2.label = some n2 := by rw [hlab]; exact hn
    have h1 := gm_degreeSum_uninitializeNodeObj hcur
    rw [hdarts] at h1
    simp only [List.length_nil, Nat.add_zero] at h1
    have h2 : (m.uninitializeNodeObj n2).edgeCount = m.edgeCount :=
      gm_edgeCount_congr (gm_uninitializeNodeObj_edges _ _)
    rw [h1, h2, hinv]
  · intro d m' s hd hwf hok
    obtain ⟨h1, h2⟩ := gm_mergeEdges_counts hd hwf hok
    omega
  · intro d fuel m' s hd hwf hok
    obtain ⟨h1, h2⟩ := gm_removeBridge_counts hd hwf hok
    omega
  · intro d fuel m' s hd hwf hok
    obtain ⟨h1, h2⟩ := gm_mergeFaces_counts hd hwf hok
    omega


/-- Witness for C7 on concrete maps: the invariant survives `mergeFaces`
on the triangle and `addNode` on the digon. -/
theorem c7_degree_sum_invariant_witness :
    mapTriMerged.degreeSum = 2 * mapTriMerged.edgeCount ∧
    (mapDigon.addNode (5, 5)).1.degreeSum = 2 * (mapDigon.addNode (5, 5)).1.edgeCount :=
  ⟨(c7_degree_sum_invariant mapTri (by with_unfolding_all decide)).2.2.2.2.2
      1 20 mapTriMerged 0 (by decide) (by with_unfolding_all decide)
      (by with_unfolding_all rfl),
   (c7_degree_sum_invariant mapDigon (by with_unfolding_all decide)).1 (5, 5)⟩
